import Mathlib

/-!
Shallow embedding of the `cloud_automation` package (an in-memory simulator of
a cloud control plane for four resource kinds) and proofs about it.

Modelling conventions, used uniformly below:
* A Python `dict` (which preserves insertion order, updates a present key in
  place, and `del`s the single entry of a key) is an association list
  `List (String × α)` with `alookup` / `aset` / `aeraseFirst` below.
* Call-time clock readings and pseudo-random draws (timestamps, etags,
  synthetic ip addresses, endpoints, digests, generated instance ids) never
  influence control flow in the source; they are modelled by a single fresh
  counter value (`nextTick`) drawn once per record-creating call.  The
  generated EC2 instance id (17 pseudo-random hex characters in the source)
  is modelled as an injective fresh-name supply `genInstanceId`.
* Methods that mutate `self` become functions returning the result paired
  with the updated manager state.
* `**kwargs` parameters are silently ignored by the source and are omitted.
-/

/-- Lookup in an insertion-ordered dict: first entry with the key. -/
def alookup {α : Type} (l : List (String × α)) (k : String) : Option α :=
  (l.find? (fun e => e.1 = k)).map (fun e => e.2)

/-- Python `k in d`. -/
def acontains {α : Type} (l : List (String × α)) (k : String) : Bool :=
  l.any (fun e => e.1 = k)

/-- Python `d[k] = v`: update the (single) entry of a present key in place,
else append. -/
def aset {α : Type} (l : List (String × α)) (k : String) (v : α) :
    List (String × α) :=
  match l with
  | [] => [(k, v)]
  | e :: rest => if e.1 = k then (k, v) :: rest else e :: aset rest k v

/-- Python `del d[k]`: remove the first entry with the key. -/
def aeraseFirst {α : Type} (l : List (String × α)) (k : String) :
    List (String × α) :=
  match l with
  | [] => []
  | e :: rest => if e.1 = k then rest else e :: aeraseFirst rest k

/-! ## S3Manager (`s3_manager.py`) -/

/-- An object stored in a bucket (`object_info` in `put_object`). -/
structure S3Object where
  key : String
  size : Int
  metadata : List (String × String)
  last_modified : Nat
  etag : Nat
deriving DecidableEq, Repr

/-- A bucket record (`bucket_info` in `create_bucket`). -/
structure Bucket where
  bucket_name : String
  region : String
  acl : String
  versioning : Bool
  encryption : Bool
  tags : List (String × String)
  creation_date : Nat
  objects : List S3Object
  size_bytes : Int
deriving DecidableEq, Repr

structure S3Manager where
  buckets : List (String × Bucket)
  nextTick : Nat
deriving DecidableEq, Repr

def S3Manager.init : S3Manager := ⟨[], 0⟩

/-- Caller-supplied parameters of `create_bucket` (after Python default
resolution; `tags or {}` is resolved by `Option.getD`). -/
structure CreateBucketParams where
  bucket_name : String
  region : String
  acl : String
  versioning : Bool
  encryption : Bool
  tags : Option (List (String × String))
deriving DecidableEq, Repr

def CreateBucketParams.simple (n : String) : CreateBucketParams :=
  ⟨n, "us-east-1", "private", false, true, none⟩

def S3Manager.create_bucket (m : S3Manager) (p : CreateBucketParams) :
    String × S3Manager :=
  if acontains m.buckets p.bucket_name then (p.bucket_name, m)
  else
    let info : Bucket :=
      { bucket_name := p.bucket_name
        region := p.region
        acl := p.acl
        versioning := p.versioning
        encryption := p.encryption
        tags := p.tags.getD []
        creation_date := m.nextTick
        objects := []
        size_bytes := 0 }
    (p.bucket_name,
     { buckets := aset m.buckets p.bucket_name info, nextTick := m.nextTick + 1 })

def S3Manager.delete_bucket (m : S3Manager) (bucket_name : String)
    (force : Bool) : Bool × S3Manager :=
  match alookup m.buckets bucket_name with
  | none => (false, m)
  | some bucket =>
    if bucket.objects ≠ [] ∧ force = false then (false, m)
    else (true, { m with buckets := aeraseFirst m.buckets bucket_name })

def S3Manager.put_object (m : S3Manager) (bucket_name key body : String)
    (metadata : Option (List (String × String))) : Bool × S3Manager :=
  match alookup m.buckets bucket_name with
  | none => (false, m)
  | some bucket =>
    let object_info : S3Object :=
      { key := key
        size := (body.length : Int)
        metadata := metadata.getD []
        last_modified := m.nextTick
        etag := m.nextTick }
    -- the source removes any existing object with the same key, appends the
    -- new object, and adds only the new object's size to `size_bytes`
    let bucket' : Bucket :=
      { bucket with
          objects := (bucket.objects.filter (fun o => o.key ≠ key)) ++ [object_info]
          size_bytes := bucket.size_bytes + object_info.size }
    (true, { buckets := aset m.buckets bucket_name bucket'
             nextTick := m.nextTick + 1 })

/-- Remove the first object with the given key (the element found by the
source's `for` loop and removed by `list.remove`). -/
def eraseFirstObj (l : List S3Object) (k : String) : List S3Object :=
  match l with
  | [] => []
  | o :: rest => if o.key = k then rest else o :: eraseFirstObj rest k

def S3Manager.delete_object (m : S3Manager) (bucket_name key : String) :
    Bool × S3Manager :=
  match alookup m.buckets bucket_name with
  | none => (false, m)
  | some bucket =>
    match bucket.objects.find? (fun o => o.key = key) with
    | none => (false, m)
    | some obj =>
      let bucket' : Bucket :=
        { bucket with
            objects := eraseFirstObj bucket.objects key
            size_bytes := bucket.size_bytes - obj.size }
      (true, { m with buckets := aset m.buckets bucket_name bucket' })

def S3Manager.list_buckets (m : S3Manager) : List Bucket :=
  m.buckets.map (fun e => e.2)

def S3Manager.list_objects (m : S3Manager) (bucket_name pref : String) :
    List S3Object :=
  match alookup m.buckets bucket_name with
  | none => []
  | some bucket =>
    if pref = "" then bucket.objects
    else bucket.objects.filter (fun o => o.key.startsWith pref)

def S3Manager.get_bucket_info (m : S3Manager) (bucket_name : String) :
    Option Bucket :=
  alookup m.buckets bucket_name

def S3Manager.enable_versioning (m : S3Manager) (bucket_name : String) :
    Bool × S3Manager :=
  match alookup m.buckets bucket_name with
  | none => (false, m)
  | some bucket =>
    (true, { m with buckets := aset m.buckets bucket_name
                      { bucket with versioning := true } })

/-- Sum of the byte lengths of a bucket's current objects (the quantity the
spec's aggregate invariant compares `size_bytes` against). -/
def objectSizeSum (b : Bucket) : Int :=
  (b.objects.map (fun o => o.size)).sum

/-! ## EC2Manager (`ec2_manager.py`) -/

/-- An EC2 instance record (`instance_info` in `create_instance`). -/
structure EC2Instance where
  instance_id : String
  instance_type : String
  ami_id : String
  key_name : Option String
  security_groups : List String
  tags : List (String × String)
  state : String
  launch_time : Nat
  public_ip : Nat
  private_ip : Nat
deriving DecidableEq, Repr

structure EC2Manager where
  instances : List (String × EC2Instance)
  nextTick : Nat
deriving DecidableEq, Repr

def EC2Manager.init : EC2Manager := ⟨[], 0⟩

/-- `_generate_instance_id`: the 17 pseudo-random hex characters are modelled
as an injective fresh-name supply indexed by the manager's counter. -/
def genInstanceId (n : Nat) : String :=
  String.mk ('i' :: '-' :: List.replicate n 'x')

/-- Caller-supplied parameters of `create_instance` (after Python default
resolution). -/
structure EC2CreateParams where
  instance_type : String
  ami_id : String
  key_name : Option String
  security_groups : Option (List String)
  tags : Option (List (String × String))
deriving DecidableEq, Repr

def EC2CreateParams.simple : EC2CreateParams :=
  ⟨"t2.micro", "ami-default", none, none, none⟩

def EC2Manager.create_instance (m : EC2Manager) (p : EC2CreateParams) :
    String × EC2Manager :=
  let instance_id := genInstanceId m.nextTick
  let info : EC2Instance :=
    { instance_id := instance_id
      instance_type := p.instance_type
      ami_id := p.ami_id
      key_name := p.key_name
      security_groups := p.security_groups.getD []
      tags := p.tags.getD []
      state := "running"
      launch_time := m.nextTick
      public_ip := m.nextTick
      private_ip := m.nextTick }
  (instance_id,
   { instances := aset m.instances instance_id info, nextTick := m.nextTick + 1 })

def EC2Manager.terminate_instance (m : EC2Manager) (instance_id : String) :
    Bool × EC2Manager :=
  match alookup m.instances instance_id with
  | some info =>
    (true, { m with instances := aset m.instances instance_id
                      { info with state := "terminated" } })
  | none => (false, m)

def EC2Manager.stop_instance (m : EC2Manager) (instance_id : String) :
    Bool × EC2Manager :=
  match alookup m.instances instance_id with
  | some info =>
    if info.state = "running" then
      (true, { m with instances := aset m.instances instance_id
                        { info with state := "stopped" } })
    else (false, m)
  | none => (false, m)

def EC2Manager.start_instance (m : EC2Manager) (instance_id : String) :
    Bool × EC2Manager :=
  match alookup m.instances instance_id with
  | some info =>
    if info.state = "stopped" then
      (true, { m with instances := aset m.instances instance_id
                        { info with state := "running" } })
    else (false, m)
  | none => (false, m)

def EC2Manager.get_instance_info (m : EC2Manager) (instance_id : String) :
    Option EC2Instance :=
  alookup m.instances instance_id

def EC2Manager.list_instances (m : EC2Manager) (state : Option String) :
    List EC2Instance :=
  match state with
  | some s => (m.instances.map (fun e => e.2)).filter (fun i => i.state = s)
  | none => m.instances.map (fun e => e.2)

/-- `tags.update(new)`: last-write-wins merge of two ordered dicts. -/
def updateTags (old new : List (String × String)) :
    List (String × String) :=
  new.foldl (fun acc e => aset acc e.1 e.2) old

def EC2Manager.tag_instance (m : EC2Manager) (instance_id : String)
    (tags : List (String × String)) : Bool × EC2Manager :=
  match alookup m.instances instance_id with
  | some info =>
    (true, { m with instances := aset m.instances instance_id
                      { info with tags := updateTags info.tags tags } })
  | none => (false, m)

/-! ## RDSManager (`rds_manager.py`) -/

/-- An RDS instance record (`instance_info` in `create_instance`).
`master_password` is accepted by the source but never stored. -/
structure RDSInstance where
  db_instance_identifier : String
  engine : String
  engine_version : String
  instance_class : String
  allocated_storage : Int
  db_name : String
  master_username : String
  multi_az : Bool
  backup_retention_period : Int
  tags : List (String × String)
  status : String
  endpoint : Nat
  port : Nat
  creation_time : Nat
deriving DecidableEq, Repr

structure RDSManager where
  instances : List (String × RDSInstance)
  nextTick : Nat
deriving DecidableEq, Repr

def RDSManager.init : RDSManager := ⟨[], 0⟩

/-- Caller-supplied parameters of RDS `create_instance` (after Python default
resolution).  `db_name` keeps Python truthiness: `db_name or identifier`. -/
structure RDSCreateParams where
  db_instance_identifier : String
  engine : String
  engine_version : String
  instance_class : String
  allocated_storage : Int
  db_name : Option String
  master_username : String
  multi_az : Bool
  backup_retention_period : Int
  tags : Option (List (String × String))
deriving DecidableEq, Repr

def RDSCreateParams.simple (id : String) : RDSCreateParams :=
  ⟨id, "mysql", "8.0", "db.t3.micro", 20, none, "admin", false, 7, none⟩

def RDSManager.create_instance (m : RDSManager) (p : RDSCreateParams) :
    String × RDSManager :=
  if acontains m.instances p.db_instance_identifier then
    (p.db_instance_identifier, m)
  else
    let info : RDSInstance :=
      { db_instance_identifier := p.db_instance_identifier
        engine := p.engine
        engine_version := p.engine_version
        instance_class := p.instance_class
        allocated_storage := p.allocated_storage
        db_name :=
          match p.db_name with
          | some s => if s = "" then p.db_instance_identifier else s
          | none => p.db_instance_identifier
        master_username := p.master_username
        multi_az := p.multi_az
        backup_retention_period := p.backup_retention_period
        tags := p.tags.getD []
        status := "available"
        endpoint := m.nextTick
        port := if p.engine = "mysql" then 3306 else 5432
        creation_time := m.nextTick }
    (p.db_instance_identifier,
     { instances := aset m.instances p.db_instance_identifier info
       nextTick := m.nextTick + 1 })

/-- `delete_instance` sets a transient "deleting" status and immediately
`del`s the record; the net effect on the registry is removal. -/
def RDSManager.delete_instance (m : RDSManager)
    (db_instance_identifier : String) : Bool × RDSManager :=
  if acontains m.instances db_instance_identifier then
    (true, { m with instances := aeraseFirst m.instances db_instance_identifier })
  else (false, m)

def RDSManager.stop_instance (m : RDSManager)
    (db_instance_identifier : String) : Bool × RDSManager :=
  match alookup m.instances db_instance_identifier with
  | some info =>
    if info.status = "available" then
      (true, { m with instances := aset m.instances db_instance_identifier
                        { info with status := "stopped" } })
    else (false, m)
  | none => (false, m)

def RDSManager.start_instance (m : RDSManager)
    (db_instance_identifier : String) : Bool × RDSManager :=
  match alookup m.instances db_instance_identifier with
  | some info =>
    if info.status = "stopped" then
      (true, { m with instances := aset m.instances db_instance_identifier
                        { info with status := "available" } })
    else (false, m)
  | none => (false, m)

def RDSManager.create_snapshot (m : RDSManager)
    (db_instance_identifier snapshot_identifier : String) : Option String :=
  if acontains m.instances db_instance_identifier then some snapshot_identifier
  else none

def RDSManager.get_instance_info (m : RDSManager)
    (db_instance_identifier : String) : Option RDSInstance :=
  alookup m.instances db_instance_identifier

def RDSManager.list_instances (m : RDSManager) (engine : Option String) :
    List RDSInstance :=
  match engine with
  | some e => (m.instances.map (fun x => x.2)).filter (fun i => i.engine = e)
  | none => m.instances.map (fun x => x.2)

/-- `modify_instance`: `if instance_class:` and `if allocated_storage:` test
Python truthiness (`""` and `0` are falsy and ignored), while
`backup_retention_period` is compared against `None` only. -/
def RDSManager.modify_instance (m : RDSManager)
    (db_instance_identifier : String) (instance_class : Option String)
    (allocated_storage : Option Int) (backup_retention_period : Option Int) :
    Bool × RDSManager :=
  match alookup m.instances db_instance_identifier with
  | none => (false, m)
  | some info =>
    let info1 :=
      match instance_class with
      | some s => if s = "" then info else { info with instance_class := s }
      | none => info
    let info2 :=
      match allocated_storage with
      | some n => if n = 0 then info1 else { info1 with allocated_storage := n }
      | none => info1
    let info3 :=
      match backup_retention_period with
      | some n => { info2 with backup_retention_period := n }
      | none => info2
    (true, { m with instances := aset m.instances db_instance_identifier info3 })

/-! ## LambdaManager (`lambda_manager.py`) -/

/-- A Lambda function record (`function_info` in `create_function`).
Note `code_size`: `len(code) if code else 1024`, so `code = ""` (falsy) also
yields 1024. -/
structure LambdaFunction where
  function_name : String
  function_arn : String
  runtime : String
  handler : String
  role : String
  description : String
  timeout : Int
  memory_size : Int
  environment : List (String × String)
  tags : List (String × String)
  code_size : Int
  code_sha256 : Nat
  last_modified : Nat
  version : String
  state : String
  invocations : Nat
deriving DecidableEq, Repr

structure LambdaManager where
  functions : List (String × LambdaFunction)
  nextTick : Nat
deriving DecidableEq, Repr

def LambdaManager.init : LambdaManager := ⟨[], 0⟩

/-- Caller-supplied parameters of `create_function` (after Python default
resolution). -/
structure LambdaCreateParams where
  function_name : String
  runtime : String
  handler : String
  role : String
  code : Option String
  description : String
  timeout : Int
  memory_size : Int
  environment : Option (List (String × String))
  tags : Option (List (String × String))
deriving DecidableEq, Repr

def LambdaCreateParams.simple (n : String) : LambdaCreateParams :=
  ⟨n, "python3.9", "index.handler", "arn:aws:iam::123456789012:role/lambda-role",
   none, "", 3, 128, none, none⟩

def LambdaManager.create_function (m : LambdaManager)
    (p : LambdaCreateParams) : String × LambdaManager :=
  if acontains m.functions p.function_name then (p.function_name, m)
  else
    let info : LambdaFunction :=
      { function_name := p.function_name
        function_arn :=
          "arn:aws:lambda:us-east-1:123456789012:function:" ++ p.function_name
        runtime := p.runtime
        handler := p.handler
        role := p.role
        description := p.description
        timeout := p.timeout
        memory_size := p.memory_size
        environment := p.environment.getD []
        tags := p.tags.getD []
        code_size :=
          match p.code with
          | some c => if c = "" then 1024 else (c.length : Int)
          | none => 1024
        code_sha256 := m.nextTick
        last_modified := m.nextTick
        version := "$LATEST"
        state := "Active"
        invocations := 0 }
    (p.function_name,
     { functions := aset m.functions p.function_name info
       nextTick := m.nextTick + 1 })

def LambdaManager.delete_function (m : LambdaManager)
    (function_name : String) : Bool × LambdaManager :=
  if acontains m.functions function_name then
    (true, { m with functions := aeraseFirst m.functions function_name })
  else (false, m)

/-- The dictionary returned by `invoke_function`: either the distinguished
not-found dict (single entry under the "error" key) or the canned success
dict (status code, executed version, payload with message and echoed input). -/
inductive InvokeResult where
  | errorResult (msg : String) : InvokeResult
  | successResult (status_code : Nat) (executed_version message : String)
      (input : List (String × String)) : InvokeResult
deriving DecidableEq, Repr

/-- The top-level keys of the Python dict an `InvokeResult` stands for. -/
def invokeResultDictKeys : InvokeResult → List String
  | .errorResult _ => ["error"]
  | .successResult _ _ _ _ => ["status_code", "executed_version", "payload"]

def LambdaManager.invoke_function (m : LambdaManager)
    (function_name : String) (payload : Option (List (String × String))) :
    InvokeResult × LambdaManager :=
  match alookup m.functions function_name with
  | none => (.errorResult "Function not found", m)
  | some info =>
    let info' := { info with invocations := info.invocations + 1 }
    (.successResult 200 "$LATEST" "Function executed successfully (simulated)"
       (payload.getD []),
     { m with functions := aset m.functions function_name info' })

def LambdaManager.update_function_code (m : LambdaManager)
    (function_name : String) (code : Option String) : Bool × LambdaManager :=
  match alookup m.functions function_name with
  | none => (false, m)
  | some info =>
    let info' :=
      { info with
          code_size :=
            match code with
            | some c => if c = "" then info.code_size else (c.length : Int)
            | none => info.code_size
          code_sha256 := m.nextTick
          last_modified := m.nextTick }
    (true, { functions := aset m.functions function_name info'
             nextTick := m.nextTick + 1 })

def LambdaManager.update_function_configuration (m : LambdaManager)
    (function_name : String) (timeout memory_size : Option Int)
    (environment : Option (List (String × String))) : Bool × LambdaManager :=
  match alookup m.functions function_name with
  | none => (false, m)
  | some info =>
    let info1 := match timeout with
      | some t => { info with timeout := t }
      | none => info
    let info2 := match memory_size with
      | some s => { info1 with memory_size := s }
      | none => info1
    let info3 := match environment with
      | some e => { info2 with environment := e }
      | none => info2
    let info4 := { info3 with last_modified := m.nextTick }
    (true, { functions := aset m.functions function_name info4
             nextTick := m.nextTick + 1 })

def LambdaManager.get_function_info (m : LambdaManager)
    (function_name : String) : Option LambdaFunction :=
  alookup m.functions function_name

def LambdaManager.list_functions (m : LambdaManager) : List LambdaFunction :=
  m.functions.map (fun e => e.2)

def LambdaManager.add_permission (m : LambdaManager)
    (function_name statement_id action principal : String) :
    Bool × LambdaManager :=
  if acontains m.functions function_name then (true, m) else (false, m)

/-! ## AWSAutomation (`aws_automation.py`)

YAML configuration loading is a collaborator concern (out of the core); the
orchestrator here receives the already-parsed configuration. -/

structure AWSAutomation where
  ec2 : EC2Manager
  s3 : S3Manager
  rds : RDSManager
  lambda_mgr : LambdaManager
deriving DecidableEq, Repr

def AWSAutomation.init : AWSAutomation :=
  ⟨EC2Manager.init, S3Manager.init, RDSManager.init, LambdaManager.init⟩

/-- The parsed infrastructure configuration: one optional list of parameter
maps per recognized kind key (`none` = key absent from the input). -/
structure InfrastructureConfig where
  ec2 : Option (List EC2CreateParams)
  s3 : Option (List CreateBucketParams)
  rds : Option (List RDSCreateParams)
  lambdaFns : Option (List LambdaCreateParams)
deriving DecidableEq, Repr

/-- The provisioning result / teardown input: identifier lists per kind.
(`destroy_infrastructure` reads each key with `.get(key, [])`, so the same
four-list shape serves both directions.) -/
structure ResourceIds where
  ec2_instances : List String
  s3_buckets : List String
  rds_instances : List String
  lambda_functions : List String
deriving DecidableEq, Repr

structure DestroyCounts where
  ec2_terminated : Nat
  s3_deleted : Nat
  rds_deleted : Nat
  lambda_deleted : Nat
deriving DecidableEq, Repr

/-- One provisioning loop: `for cfg in list: append(create(**cfg))`. -/
def provisionLoop {M P : Type} (create : M → P → String × M) :
    M → List P → List String × M
  | m, [] => ([], m)
  | m, p :: ps =>
    let r := create m p
    let rest := provisionLoop create r.2 ps
    (r.1 :: rest.1, rest.2)

/-- One teardown loop: `for id in list: if delete(id): count += 1`. -/
def destroyLoop {M : Type} (del : M → String → Bool × M) :
    M → List String → Nat × M
  | m, [] => (0, m)
  | m, id :: ids =>
    let r := del m id
    let rest := destroyLoop del r.2 ids
    ((if r.1 then 1 else 0) + rest.1, rest.2)

/-- `provision_infrastructure`: kinds processed in the fixed source order
ec2, s3, rds, lambda; absent keys are skipped. -/
def AWSAutomation.provision_infrastructure (a : AWSAutomation)
    (cfg : InfrastructureConfig) : ResourceIds × AWSAutomation :=
  let rEc2 := match cfg.ec2 with
    | none => ([], a.ec2)
    | some ps => provisionLoop EC2Manager.create_instance a.ec2 ps
  let rS3 := match cfg.s3 with
    | none => ([], a.s3)
    | some ps => provisionLoop S3Manager.create_bucket a.s3 ps
  let rRds := match cfg.rds with
    | none => ([], a.rds)
    | some ps => provisionLoop RDSManager.create_instance a.rds ps
  let rLam := match cfg.lambdaFns with
    | none => ([], a.lambda_mgr)
    | some ps => provisionLoop LambdaManager.create_function a.lambda_mgr ps
  ({ ec2_instances := rEc2.1
     s3_buckets := rS3.1
     rds_instances := rRds.1
     lambda_functions := rLam.1 },
   { ec2 := rEc2.2, s3 := rS3.2, rds := rRds.2, lambda_mgr := rLam.2 })

/-- `destroy_infrastructure`: s3 buckets are deleted with the default
`force=False`; a failed delete simply leaves the count unincremented. -/
def AWSAutomation.destroy_infrastructure (a : AWSAutomation)
    (resource_ids : ResourceIds) : DestroyCounts × AWSAutomation :=
  let rEc2 := destroyLoop EC2Manager.terminate_instance a.ec2
    resource_ids.ec2_instances
  let rS3 := destroyLoop (fun m n => S3Manager.delete_bucket m n false) a.s3
    resource_ids.s3_buckets
  let rRds := destroyLoop RDSManager.delete_instance a.rds
    resource_ids.rds_instances
  let rLam := destroyLoop LambdaManager.delete_function a.lambda_mgr
    resource_ids.lambda_functions
  ({ ec2_terminated := rEc2.1
     s3_deleted := rS3.1
     rds_deleted := rRds.1
     lambda_deleted := rLam.1 },
   { ec2 := rEc2.2, s3 := rS3.2, rds := rRds.2, lambda_mgr := rLam.2 })

/-- `get_infrastructure_status`: unfiltered list of every registry. -/
def AWSAutomation.get_infrastructure_status (a : AWSAutomation) :
    List EC2Instance × List Bucket × List RDSInstance × List LambdaFunction :=
  (a.ec2.list_instances none, a.s3.list_buckets,
   a.rds.list_instances none, a.lambda_mgr.list_functions)

/-- Well-formedness of an EC2 manager: no id that the fresh-name supply may
still produce is already a registry key.  This encodes the simulator's
working assumption that generated instance ids do not collide; it holds for
`EC2Manager.init` and is preserved by every operation. -/
def EC2Manager.WF (m : EC2Manager) : Prop :=
  ∀ j, m.nextTick ≤ j → acontains m.instances (genInstanceId j) = false

/-! ## Association-list (dict) lemmas -/

theorem alookup_nil {α : Type} (k : String) :
    alookup ([] : List (String × α)) k = none := rfl

theorem alookup_cons {α : Type} (e : String × α) (l : List (String × α))
    (k : String) :
    alookup (e :: l) k = if e.1 = k then some e.2 else alookup l k := by
  by_cases h : e.1 = k <;> simp [alookup, List.find?_cons, h]

theorem acontains_cons {α : Type} (e : String × α) (l : List (String × α))
    (k : String) :
    acontains (e :: l) k = (decide (e.1 = k) || acontains l k) := by
  simp [acontains]

theorem acontains_false_iff {α : Type} (l : List (String × α)) (k : String) :
    acontains l k = false ↔ alookup l k = none := by
  simp [acontains, alookup, List.any_eq_false, List.find?_eq_none,
    Option.map_eq_none']

theorem acontains_true_iff_mem_keys {α : Type} (l : List (String × α))
    (k : String) : acontains l k = true ↔ k ∈ l.map Prod.fst := by
  simp [acontains, List.any_eq_true, List.mem_map]

theorem alookup_eq_some_of_mem_of_key {α : Type} {l : List (String × α)}
    {v : α} {k : String} (h : (k, v) ∈ l)
    (hnd : (l.map Prod.fst).Nodup) : alookup l k = some v := by
  induction l with
  | nil => simp at h
  | cons e rest ih =>
    rw [List.map_cons, List.nodup_cons] at hnd
    rcases List.mem_cons.1 h with h1 | h1
    · simp [← h1, alookup_cons]
    · have hk : e.1 ≠ k := by
        intro he
        subst he
        exact hnd.1 (List.mem_map.mpr ⟨(e.1, v), h1, rfl⟩)
      rw [alookup_cons, if_neg hk]
      exact ih h1 hnd.2

theorem alookup_mem_values {α : Type} {l : List (String × α)} {k : String}
    {v : α} (h : alookup l k = some v) : v ∈ l.map Prod.snd := by
  induction l with
  | nil => simp [alookup] at h
  | cons e rest ih =>
    rw [alookup_cons] at h
    by_cases hk : e.1 = k
    · simp only [hk, if_true, Option.some_inj] at h
      simp [← h]
    · simp only [hk, if_false] at h
      simp [ih h]

theorem alookup_aset_self {α : Type} (l : List (String × α)) (k : String)
    (v : α) : alookup (aset l k v) k = some v := by
  induction l with
  | nil => simp [aset, alookup_cons]
  | cons e rest ih =>
    by_cases hk : e.1 = k
    · simp [aset, hk, alookup_cons]
    · simp [aset, hk, alookup_cons, ih]

theorem alookup_aset_ne {α : Type} (l : List (String × α)) {k k' : String}
    (v : α) (h : k' ≠ k) : alookup (aset l k v) k' = alookup l k' := by
  induction l with
  | nil => simp [aset, alookup_cons, alookup_nil, Ne.symm h]
  | cons e rest ih =>
    by_cases hk : e.1 = k
    · simp [aset, hk, alookup_cons, Ne.symm h, h]
    · by_cases hk' : e.1 = k'
      · simp [aset, hk, alookup_cons, hk', h]
      · simp [aset, hk, alookup_cons, hk', ih]

theorem acontains_aset_iff {α : Type} (l : List (String × α)) (k k' : String)
    (v : α) :
    acontains (aset l k v) k' = true ↔ (acontains l k' = true ∨ k' = k) := by
  induction l with
  | nil => simp [aset, acontains_cons, acontains, eq_comm]
  | cons e rest ih =>
    by_cases hk : e.1 = k
    · subst hk
      simp only [aset, if_true, acontains_cons, Bool.or_eq_true,
        decide_eq_true_eq]
      constructor
      · rintro (hh | hh)
        · exact Or.inl (Or.inl hh)
        · exact Or.inl (Or.inr hh)
      · rintro ((hh | hh) | hh)
        · exact Or.inl hh
        · exact Or.inr hh
        · exact Or.inl hh.symm
    · simp only [aset, hk, if_false, acontains_cons, Bool.or_eq_true,
        decide_eq_true_eq] at ih ⊢
      tauto

theorem keys_aset_of_contains {α : Type} {l : List (String × α)} {k : String}
    (v : α) (h : acontains l k = true) :
    (aset l k v).map Prod.fst = l.map Prod.fst := by
  induction l with
  | nil => simp [acontains] at h
  | cons e rest ih =>
    by_cases hk : e.1 = k
    · simp [aset, hk]
    · simp only [acontains_cons, hk, Bool.or_eq_true, decide_eq_true_eq,
        false_or] at h
      simp [aset, hk, ih h]

theorem length_aset_of_contains {α : Type} {l : List (String × α)}
    {k : String} (v : α) (h : acontains l k = true) :
    (aset l k v).length = l.length := by
  have h1 := congrArg List.length (keys_aset_of_contains (l := l) (k := k) v h)
  simpa using h1

theorem mem_aset_ne {α : Type} {l : List (String × α)} {k : String} {v : α}
    {e' : String × α} (he : e' ∈ aset l k v) (hne : e'.1 ≠ k) : e' ∈ l := by
  induction l with
  | nil =>
    simp only [aset, List.mem_singleton] at he
    exact absurd (by simp [he]) hne
  | cons e rest ih =>
    by_cases hk : e.1 = k
    · simp only [aset, hk, if_true, List.mem_cons] at he
      rcases he with he | he
      · exact absurd (by simp [he]) hne
      · exact List.mem_cons_of_mem _ he
    · simp only [aset, hk, if_false, List.mem_cons] at he
      rcases he with he | he
      · exact he ▸ List.mem_cons_self _ _
      · exact List.mem_cons_of_mem _ (ih he)

theorem mem_aset_eq_key_of_nodup {α : Type} {l : List (String × α)}
    {k : String} {v : α} {e' : String × α}
    (hnd : (l.map Prod.fst).Nodup) (he : e' ∈ aset l k v) (hk' : e'.1 = k) :
    e' = (k, v) := by
  induction l with
  | nil => simpa [aset] using he
  | cons e rest ih =>
    rw [List.map_cons, List.nodup_cons] at hnd
    by_cases hk : e.1 = k
    · simp only [aset, hk, if_true, List.mem_cons] at he
      rcases he with he | he
      · exact he
      · exfalso
        have : e.1 ∈ rest.map Prod.fst :=
          List.mem_map.mpr ⟨e', he, by rw [hk', hk]⟩
        exact hnd.1 this
    · simp only [aset, hk, if_false, List.mem_cons] at he
      rcases he with he | he
      · exact absurd (he ▸ hk' : e.1 = k) hk
      · exact ih hnd.2 he

theorem nodup_keys_aset_of_contains {α : Type} {l : List (String × α)}
    {k : String} (v : α) (h : acontains l k = true)
    (hnd : (l.map Prod.fst).Nodup) : ((aset l k v).map Prod.fst).Nodup := by
  rw [keys_aset_of_contains v h]; exact hnd

theorem alookup_aeraseFirst_ne {α : Type} (l : List (String × α))
    {k k' : String} (h : k' ≠ k) :
    alookup (aeraseFirst l k) k' = alookup l k' := by
  induction l with
  | nil => simp [aeraseFirst]
  | cons e rest ih =>
    by_cases hk : e.1 = k
    · simp [aeraseFirst, hk, alookup_cons, Ne.symm h, h]
    · by_cases hk' : e.1 = k'
      · simp [aeraseFirst, hk, alookup_cons, hk', h]
      · simp [aeraseFirst, hk, alookup_cons, hk', ih]

theorem alookup_aeraseFirst_self_of_nodup {α : Type} {l : List (String × α)}
    {k : String} (hnd : (l.map Prod.fst).Nodup) :
    alookup (aeraseFirst l k) k = none := by
  induction l with
  | nil => simp [aeraseFirst, alookup_nil]
  | cons e rest ih =>
    rw [List.map_cons, List.nodup_cons] at hnd
    by_cases hk : e.1 = k
    · simp only [aeraseFirst, hk, if_true]
      rw [← acontains_false_iff]
      by_cases hc : acontains rest k
      · exfalso
        rw [acontains_true_iff_mem_keys] at hc
        exact hnd.1 (hk ▸ hc)
      · simpa using hc
    · simp only [aeraseFirst, hk, if_false, alookup_cons, if_neg hk]
      exact ih hnd.2

theorem acontains_aeraseFirst_of_not {α : Type} {l : List (String × α)}
    {k k' : String} (h : acontains l k' = false) :
    acontains (aeraseFirst l k) k' = false := by
  induction l with
  | nil => simp [aeraseFirst, acontains]
  | cons e rest ih =>
    rw [acontains_cons, Bool.or_eq_false_iff] at h
    by_cases hk : e.1 = k
    · simpa [aeraseFirst, hk] using h.2
    · simp [aeraseFirst, hk, acontains_cons, h.1, ih h.2]

/-- `genInstanceId` is injective: the fresh-name supply never repeats. -/
theorem genInstanceId_inj {a b : Nat} (h : genInstanceId a = genInstanceId b) :
    a = b := by
  unfold genInstanceId at h
  have h2 := congrArg String.data h
  simp only [List.cons.injEq] at h2
  have h3 : (List.replicate a 'x').length = (List.replicate b 'x').length := by
    rw [h2.2.2]
  simpa using h3

theorem aset_append_of_not_contains {α : Type} {l : List (String × α)}
    {k : String} (v : α) (h : acontains l k = false) :
    aset l k v = l ++ [(k, v)] := by
  induction l with
  | nil => simp [aset]
  | cons e rest ih =>
    rw [acontains_cons, Bool.or_eq_false_iff] at h
    have hk : ¬e.1 = k := by simpa using h.1
    simp [aset, hk, ih h.2]

theorem acontains_append {α : Type} (l1 l2 : List (String × α)) (k : String) :
    acontains (l1 ++ l2) k = (acontains l1 k || acontains l2 k) := by
  simp [acontains, List.any_append]

theorem acontains_true_iff_lookup {α : Type} (l : List (String × α))
    (k : String) : acontains l k = true ↔ ∃ v, alookup l k = some v := by
  constructor
  · intro h
    cases hl : alookup l k with
    | some v => exact ⟨v, rfl⟩
    | none =>
      rw [← acontains_false_iff] at hl
      rw [hl] at h
      exact absurd h (by simp)
  · rintro ⟨v, hv⟩
    cases hc : acontains l k with
    | true => rfl
    | false =>
      rw [acontains_false_iff] at hc
      rw [hc] at hv
      exact absurd hv (by simp)

/-! ## Provisioning loop lemmas -/

theorem create_bucket_of_fresh {m : S3Manager} {p : CreateBucketParams}
    (h : acontains m.buckets p.bucket_name = false) :
    ∃ b : Bucket,
      (m.create_bucket p).1 = p.bucket_name
      ∧ (m.create_bucket p).2.buckets = m.buckets ++ [(p.bucket_name, b)]
      ∧ (m.create_bucket p).2.nextTick = m.nextTick + 1
      ∧ b.objects = [] := by
  unfold S3Manager.create_bucket
  rw [if_neg (by simp [h])]
  refine ⟨{ bucket_name := p.bucket_name, region := p.region, acl := p.acl,
            versioning := p.versioning, encryption := p.encryption,
            tags := p.tags.getD [], creation_date := m.nextTick,
            objects := [], size_bytes := 0 }, rfl, ?_, rfl, rfl⟩
  simp [aset_append_of_not_contains _ h]

theorem provisionLoop_s3 (ps : List CreateBucketParams) :
    ∀ m : S3Manager,
      (∀ p ∈ ps, acontains m.buckets p.bucket_name = false) →
      (ps.map CreateBucketParams.bucket_name).Nodup →
      ∃ es : List (String × Bucket),
        provisionLoop S3Manager.create_bucket m ps
          = (ps.map CreateBucketParams.bucket_name,
             { buckets := m.buckets ++ es, nextTick := m.nextTick + ps.length })
        ∧ es.map Prod.fst = ps.map CreateBucketParams.bucket_name
        ∧ ∀ e ∈ es, e.2.objects = ([] : List S3Object) := by
  induction ps with
  | nil =>
    intro m _ _
    exact ⟨[], by simp [provisionLoop], rfl, by simp⟩
  | cons p ps ih =>
    intro m hfresh hnd
    rw [List.map_cons, List.nodup_cons] at hnd
    obtain ⟨b, hb1, hb2, hb3, hb4⟩ :=
      create_bucket_of_fresh (hfresh p (List.mem_cons_self _ _))
    have hfresh' : ∀ q ∈ ps, acontains (m.create_bucket p).2.buckets
        q.bucket_name = false := by
      intro q hq
      rw [hb2, acontains_append, Bool.or_eq_false_iff]
      refine ⟨hfresh q (List.mem_cons_of_mem _ hq), ?_⟩
      have : p.bucket_name ≠ q.bucket_name := by
        intro hh
        exact hnd.1 (hh ▸ List.mem_map.mpr ⟨q, hq, rfl⟩)
      simp [acontains, this]
    obtain ⟨es, hes1, hes2, hes3⟩ := ih (m.create_bucket p).2 hfresh' hnd.2
    refine ⟨(p.bucket_name, b) :: es, ?_, by simp [hes2], ?_⟩
    · simp only [provisionLoop, hes1, hb1, List.map_cons]
      refine Prod.ext rfl ?_
      simp only [S3Manager.mk.injEq]
      constructor
      · rw [hb2, List.append_assoc]
        rfl
      · rw [hb3, List.length_cons]
        omega
    · intro e he
      rcases List.mem_cons.1 he with he | he
      · rw [he]
        exact hb4
      · exact hes3 e he

theorem rds_create_of_fresh {m : RDSManager} {p : RDSCreateParams}
    (h : acontains m.instances p.db_instance_identifier = false) :
    ∃ r : RDSInstance,
      (m.create_instance p).1 = p.db_instance_identifier
      ∧ (m.create_instance p).2.instances
          = m.instances ++ [(p.db_instance_identifier, r)]
      ∧ (m.create_instance p).2.nextTick = m.nextTick + 1 := by
  unfold RDSManager.create_instance
  rw [if_neg (by simp [h])]
  refine ⟨{ db_instance_identifier := p.db_instance_identifier,
            engine := p.engine, engine_version := p.engine_version,
            instance_class := p.instance_class,
            allocated_storage := p.allocated_storage,
            db_name :=
              match p.db_name with
              | some s => if s = "" then p.db_instance_identifier else s
              | none => p.db_instance_identifier,
            master_username := p.master_username, multi_az := p.multi_az,
            backup_retention_period := p.backup_retention_period,
            tags := p.tags.getD [], status := "available",
            endpoint := m.nextTick,
            port := if p.engine = "mysql" then 3306 else 5432,
            creation_time := m.nextTick }, rfl, ?_, rfl⟩
  simp [aset_append_of_not_contains _ h]

theorem provisionLoop_rds (ps : List RDSCreateParams) :
    ∀ m : RDSManager,
      (∀ p ∈ ps, acontains m.instances p.db_instance_identifier = false) →
      (ps.map RDSCreateParams.db_instance_identifier).Nodup →
      ∃ es : List (String × RDSInstance),
        provisionLoop RDSManager.create_instance m ps
          = (ps.map RDSCreateParams.db_instance_identifier,
             { instances := m.instances ++ es,
               nextTick := m.nextTick + ps.length })
        ∧ es.map Prod.fst = ps.map RDSCreateParams.db_instance_identifier := by
  induction ps with
  | nil =>
    intro m _ _
    exact ⟨[], by simp [provisionLoop], rfl⟩
  | cons p ps ih =>
    intro m hfresh hnd
    rw [List.map_cons, List.nodup_cons] at hnd
    obtain ⟨r, hb1, hb2, hb3⟩ :=
      rds_create_of_fresh (hfresh p (List.mem_cons_self _ _))
    have hfresh' : ∀ q ∈ ps, acontains (m.create_instance p).2.instances
        q.db_instance_identifier = false := by
      intro q hq
      rw [hb2, acontains_append, Bool.or_eq_false_iff]
      refine ⟨hfresh q (List.mem_cons_of_mem _ hq), ?_⟩
      have : p.db_instance_identifier ≠ q.db_instance_identifier := by
        intro hh
        exact hnd.1 (hh ▸ List.mem_map.mpr ⟨q, hq, rfl⟩)
      simp [acontains, this]
    obtain ⟨es, hes1, hes2⟩ := ih (m.create_instance p).2 hfresh' hnd.2
    refine ⟨(p.db_instance_identifier, r) :: es, ?_, by simp [hes2]⟩
    simp only [provisionLoop, hes1, hb1, List.map_cons]
    refine Prod.ext rfl ?_
    simp only [RDSManager.mk.injEq]
    constructor
    · rw [hb2, List.append_assoc]
      rfl
    · rw [hb3, List.length_cons]
      omega

theorem lambda_create_of_fresh {m : LambdaManager} {p : LambdaCreateParams}
    (h : acontains m.functions p.function_name = false) :
    ∃ f : LambdaFunction,
      (m.create_function p).1 = p.function_name
      ∧ (m.create_function p).2.functions
          = m.functions ++ [(p.function_name, f)]
      ∧ (m.create_function p).2.nextTick = m.nextTick + 1 := by
  unfold LambdaManager.create_function
  rw [if_neg (by simp [h])]
  refine ⟨{ function_name := p.function_name,
            function_arn :=
              "arn:aws:lambda:us-east-1:123456789012:function:"
                ++ p.function_name,
            runtime := p.runtime, handler := p.handler, role := p.role,
            description := p.description, timeout := p.timeout,
            memory_size := p.memory_size,
            environment := p.environment.getD [], tags := p.tags.getD [],
            code_size :=
              match p.code with
              | some c => if c = "" then 1024 else (c.length : Int)
              | none => 1024,
            code_sha256 := m.nextTick, last_modified := m.nextTick,
            version := "$LATEST", state := "Active",
            invocations := 0 }, rfl, ?_, rfl⟩
  simp [aset_append_of_not_contains _ h]

theorem provisionLoop_lambda (ps : List LambdaCreateParams) :
    ∀ m : LambdaManager,
      (∀ p ∈ ps, acontains m.functions p.function_name = false) →
      (ps.map LambdaCreateParams.function_name).Nodup →
      ∃ es : List (String × LambdaFunction),
        provisionLoop LambdaManager.create_function m ps
          = (ps.map LambdaCreateParams.function_name,
             { functions := m.functions ++ es,
               nextTick := m.nextTick + ps.length })
        ∧ es.map Prod.fst = ps.map LambdaCreateParams.function_name := by
  induction ps with
  | nil =>
    intro m _ _
    exact ⟨[], by simp [provisionLoop], rfl⟩
  | cons p ps ih =>
    intro m hfresh hnd
    rw [List.map_cons, List.nodup_cons] at hnd
    obtain ⟨f, hb1, hb2, hb3⟩ :=
      lambda_create_of_fresh (hfresh p (List.mem_cons_self _ _))
    have hfresh' : ∀ q ∈ ps, acontains (m.create_function p).2.functions
        q.function_name = false := by
      intro q hq
      rw [hb2, acontains_append, Bool.or_eq_false_iff]
      refine ⟨hfresh q (List.mem_cons_of_mem _ hq), ?_⟩
      have : p.function_name ≠ q.function_name := by
        intro hh
        exact hnd.1 (hh ▸ List.mem_map.mpr ⟨q, hq, rfl⟩)
      simp [acontains, this]
    obtain ⟨es, hes1, hes2⟩ := ih (m.create_function p).2 hfresh' hnd.2
    refine ⟨(p.function_name, f) :: es, ?_, by simp [hes2]⟩
    simp only [provisionLoop, hes1, hb1, List.map_cons]
    refine Prod.ext rfl ?_
    simp only [LambdaManager.mk.injEq]
    constructor
    · rw [hb2, List.append_assoc]
      rfl
    · rw [hb3, List.length_cons]
      omega

theorem ec2_create_step (m : EC2Manager) (p : EC2CreateParams)
    (hwf : m.WF) :
    ∃ i : EC2Instance,
      (m.create_instance p).1 = genInstanceId m.nextTick
      ∧ (m.create_instance p).2.instances
          = m.instances ++ [(genInstanceId m.nextTick, i)]
      ∧ (m.create_instance p).2.nextTick = m.nextTick + 1
      ∧ i.state = "running" := by
  unfold EC2Manager.create_instance
  have h := hwf m.nextTick (Nat.le_refl _)
  refine ⟨{ instance_id := genInstanceId m.nextTick,
            instance_type := p.instance_type, ami_id := p.ami_id,
            key_name := p.key_name,
            security_groups := p.security_groups.getD [],
            tags := p.tags.getD [], state := "running",
            launch_time := m.nextTick, public_ip := m.nextTick,
            private_ip := m.nextTick }, rfl, ?_, rfl, rfl⟩
  simp [aset_append_of_not_contains _ h]

theorem ec2_wf_after_append {m : EC2Manager} {i : EC2Instance} (hwf : m.WF) :
    EC2Manager.WF
      { instances := m.instances ++ [(genInstanceId m.nextTick, i)],
        nextTick := m.nextTick + 1 } := by
  intro j hj
  simp only at hj ⊢
  rw [acontains_append, Bool.or_eq_false_iff]
  refine ⟨hwf j (by omega), ?_⟩
  have : genInstanceId m.nextTick ≠ genInstanceId j := by
    intro hh
    have := genInstanceId_inj hh
    omega
  simp [acontains, this]

theorem provisionLoop_ec2 (ps : List EC2CreateParams) :
    ∀ m : EC2Manager, m.WF →
      ∃ es : List (String × EC2Instance),
        provisionLoop EC2Manager.create_instance m ps
          = (es.map Prod.fst,
             { instances := m.instances ++ es,
               nextTick := m.nextTick + ps.length })
        ∧ es.map Prod.fst
            = (List.range ps.length).map (fun j => genInstanceId (m.nextTick + j))
        ∧ EC2Manager.WF
            { instances := m.instances ++ es,
              nextTick := m.nextTick + ps.length } := by
  induction ps with
  | nil =>
    intro m hwf
    refine ⟨[], by simp [provisionLoop], by simp, ?_⟩
    simpa using hwf
  | cons p ps ih =>
    intro m hwf
    obtain ⟨i, hb1, hb2, hb3, _⟩ := ec2_create_step m p hwf
    have hwf1 : (m.create_instance p).2.WF := by
      have := ec2_wf_after_append (m := m) (i := i) hwf
      unfold EC2Manager.WF at this ⊢
      rw [hb2, hb3]
      exact this
    obtain ⟨es, hes1, hes2, hes3⟩ := ih (m.create_instance p).2 hwf1
    refine ⟨(genInstanceId m.nextTick, i) :: es, ?_, ?_, ?_⟩
    · simp only [provisionLoop, hes1, hb1, List.map_cons]
      refine Prod.ext rfl ?_
      simp only [EC2Manager.mk.injEq]
      constructor
      · rw [hb2, List.append_assoc]
        rfl
      · rw [hb3, List.length_cons]
        omega
    · rw [List.map_cons, hes2, hb3, List.length_cons, List.range_succ_eq_map,
        List.map_cons, List.map_map, Nat.add_zero]
      refine congrArg (List.cons (genInstanceId m.nextTick)) ?_
      refine List.map_congr_left ?_
      intro a _
      simp only [Function.comp_apply]
      exact congrArg genInstanceId (by omega)
    · unfold EC2Manager.WF at hes3 ⊢
      intro j hj
      simp only at hj ⊢
      have hj' : (m.create_instance p).2.nextTick + ps.length ≤ j := by
        rw [hb3]
        simp only [List.length_cons] at hj
        omega
      have hthis := hes3 j hj'
      simp only at hthis
      rw [hb2, List.append_assoc] at hthis
      simpa using hthis

/-! ## Teardown loop lemmas -/

theorem terminate_step {m : EC2Manager} {id : String} {i : EC2Instance}
    (h : alookup m.instances id = some i) :
    m.terminate_instance id
      = (true,
         { m with instances := (aset m.instances id
             { i with state := "terminated" }) }) := by
  unfold EC2Manager.terminate_instance
  rw [h]

theorem destroyLoop_terminate (ids : List String) :
    ∀ m : EC2Manager,
      (∀ id ∈ ids, acontains m.instances id = true) →
      (m.instances.map Prod.fst).Nodup →
      (destroyLoop EC2Manager.terminate_instance m ids).1 = ids.length
      ∧ (destroyLoop EC2Manager.terminate_instance m ids).2.instances.map
            Prod.fst = m.instances.map Prod.fst
      ∧ ∀ e ∈ (destroyLoop EC2Manager.terminate_instance m ids).2.instances,
          (e.1 ∈ ids → e.2.state = "terminated")
          ∧ (e.1 ∉ ids → e ∈ m.instances) := by
  induction ids with
  | nil =>
    intro m _ _
    exact ⟨rfl, rfl,
      fun e he => ⟨fun h => absurd h (List.not_mem_nil _), fun _ => he⟩⟩
  | cons id0 rest ih =>
    intro m hmem hnd
    have h0 : acontains m.instances id0 = true :=
      hmem id0 (List.mem_cons_self _ _)
    obtain ⟨i0, hi0⟩ := (acontains_true_iff_lookup _ _).1 h0
    have hkeys1 : (aset m.instances id0
          { i0 with state := "terminated" }).map Prod.fst
        = m.instances.map Prod.fst := keys_aset_of_contains _ h0
    have hnd1 : ((aset m.instances id0
        { i0 with state := "terminated" }).map Prod.fst).Nodup := by
      rw [hkeys1]; exact hnd
    have hmem1 : ∀ id ∈ rest, acontains (aset m.instances id0
        { i0 with state := "terminated" }) id = true := by
      intro id hid
      rw [acontains_true_iff_mem_keys, hkeys1, ← acontains_true_iff_mem_keys]
      exact hmem id (List.mem_cons_of_mem _ hid)
    obtain ⟨ihc, ihk, ihe⟩ := ih
      { m with instances := (aset m.instances id0
          { i0 with state := "terminated" }) } hmem1 hnd1
    refine ⟨?_, ?_, ?_⟩
    · simp only [destroyLoop, terminate_step hi0]
      simp [ihc]
      omega
    · simp only [destroyLoop, terminate_step hi0]
      rw [ihk]
      exact hkeys1
    · intro e he
      simp only [destroyLoop, terminate_step hi0] at he
      constructor
      · intro hein
        rcases List.mem_cons.1 hein with he1 | he1
        · by_cases hr : e.1 ∈ rest
          · exact (ihe e he).1 hr
          · have hm1 := (ihe e he).2 hr
            have := mem_aset_eq_key_of_nodup hnd hm1 he1
            rw [this]
        · exact (ihe e he).1 he1
      · intro hnotin
        have hr : e.1 ∉ rest := fun hc => hnotin (List.mem_cons_of_mem _ hc)
        have h1 : e.1 ≠ id0 := fun hc => hnotin (hc ▸ List.mem_cons_self _ _)
        exact mem_aset_ne ((ihe e he).2 hr) h1

theorem destroyLoop_s3_delete (names : List String) :
    ∀ (es : List (String × Bucket)) (m : S3Manager),
      m.buckets = es → es.map Prod.fst = names → names.Nodup →
      (∀ e ∈ es, e.2.objects = ([] : List S3Object)) →
      (destroyLoop (fun mm n => S3Manager.delete_bucket mm n false)
          m names).1 = names.length
      ∧ (destroyLoop (fun mm n => S3Manager.delete_bucket mm n false)
          m names).2.buckets = [] := by
  induction names with
  | nil =>
    intro es m hm hkeys _ _
    refine ⟨rfl, ?_⟩
    have hes : es = [] := List.map_eq_nil.1 hkeys
    simp [destroyLoop, hm, hes]
  | cons n0 rest ih =>
    intro es m hm hkeys hnd hobj
    cases es with
    | nil => simp at hkeys
    | cons e0 es' =>
      rw [List.map_cons] at hkeys
      injection hkeys with hk0 hkrest
      rw [List.nodup_cons] at hnd
      have hlook : alookup m.buckets n0 = some e0.2 := by
        rw [hm, alookup_cons]
        simp [hk0]
      have hobj0 : e0.2.objects = [] := hobj e0 (List.mem_cons_self _ _)
      have hdel : S3Manager.delete_bucket m n0 false
          = (true, { m with buckets := es' }) := by
        unfold S3Manager.delete_bucket
        rw [hlook]
        simp [hobj0, hm, aeraseFirst, hk0]
      obtain ⟨ihc, ihb⟩ := ih es' { m with buckets := es' } rfl hkrest hnd.2
        (fun e he => hobj e (List.mem_cons_of_mem _ he))
      constructor
      · simp only [destroyLoop, hdel]
        simp [ihc]
        omega
      · simp only [destroyLoop, hdel]
        exact ihb

theorem destroyLoop_rds_delete (names : List String) :
    ∀ (es : List (String × RDSInstance)) (m : RDSManager),
      m.instances = es → es.map Prod.fst = names → names.Nodup →
      (destroyLoop RDSManager.delete_instance m names).1 = names.length
      ∧ (destroyLoop RDSManager.delete_instance m names).2.instances = [] := by
  induction names with
  | nil =>
    intro es m hm hkeys _
    refine ⟨rfl, ?_⟩
    have hes : es = [] := List.map_eq_nil.1 hkeys
    simp [destroyLoop, hm, hes]
  | cons n0 rest ih =>
    intro es m hm hkeys hnd
    cases es with
    | nil => simp at hkeys
    | cons e0 es' =>
      rw [List.map_cons] at hkeys
      injection hkeys with hk0 hkrest
      rw [List.nodup_cons] at hnd
      have hc : acontains m.instances n0 = true := by
        rw [hm, acontains_cons]
        simp [hk0]
      have hdel : RDSManager.delete_instance m n0
          = (true, { m with instances := es' }) := by
        unfold RDSManager.delete_instance
        rw [if_pos hc]
        simp [hm, aeraseFirst, hk0]
      obtain ⟨ihc, ihb⟩ := ih es' { m with instances := es' } rfl hkrest hnd.2
      constructor
      · simp only [destroyLoop, hdel]
        simp [ihc]
        omega
      · simp only [destroyLoop, hdel]
        exact ihb

theorem destroyLoop_lambda_delete (names : List String) :
    ∀ (es : List (String × LambdaFunction)) (m : LambdaManager),
      m.functions = es → es.map Prod.fst = names → names.Nodup →
      (destroyLoop LambdaManager.delete_function m names).1 = names.length
      ∧ (destroyLoop LambdaManager.delete_function m names).2.functions
          = [] := by
  induction names with
  | nil =>
    intro es m hm hkeys _
    refine ⟨rfl, ?_⟩
    have hes : es = [] := List.map_eq_nil.1 hkeys
    simp [destroyLoop, hm, hes]
  | cons n0 rest ih =>
    intro es m hm hkeys hnd
    cases es with
    | nil => simp at hkeys
    | cons e0 es' =>
      rw [List.map_cons] at hkeys
      injection hkeys with hk0 hkrest
      rw [List.nodup_cons] at hnd
      have hc : acontains m.functions n0 = true := by
        rw [hm, acontains_cons]
        simp [hk0]
      have hdel : LambdaManager.delete_function m n0
          = (true, { m with functions := es' }) := by
        unfold LambdaManager.delete_function
        rw [if_pos hc]
        simp [hm, aeraseFirst, hk0]
      obtain ⟨ihc, ihb⟩ := ih es' { m with functions := es' } rfl hkrest hnd.2
      constructor
      · simp only [destroyLoop, hdel]
        simp [ihc]
        omega
      · simp only [destroyLoop, hdel]
        exact ihb

/-! ## A not-found identifier inside a teardown batch is skipped -/

theorem terminate_absent {m : EC2Manager} {id : String}
    (h : acontains m.instances id = false) :
    m.terminate_instance id = (false, m) := by
  unfold EC2Manager.terminate_instance
  rw [(acontains_false_iff _ _).1 h]

theorem destroyLoop_skip_ec2 (pre : List String) :
    ∀ (m : EC2Manager) (bad : String) (post : List String),
      acontains m.instances bad = false →
      destroyLoop EC2Manager.terminate_instance m (pre ++ bad :: post)
        = destroyLoop EC2Manager.terminate_instance m (pre ++ post) := by
  induction pre with
  | nil =>
    intro m bad post h
    simp [destroyLoop, terminate_absent h]
  | cons x pre ih =>
    intro m bad post h
    have hpres : acontains (m.terminate_instance x).2.instances bad
        = false := by
      unfold EC2Manager.terminate_instance
      cases hx : alookup m.instances x with
      | none => simpa using h
      | some i =>
        simp only
        rw [Bool.eq_false_iff]
        intro hc
        rcases (acontains_aset_iff _ _ _ _).1 hc with hc1 | hc1
        · rw [h] at hc1
          exact Bool.noConfusion hc1
        · subst hc1
          rw [(acontains_true_iff_lookup _ _).2 ⟨i, hx⟩] at h
          exact Bool.noConfusion h
    rw [List.cons_append, List.cons_append]
    simp only [destroyLoop]
    rw [ih _ _ _ hpres]

theorem delete_bucket_absent {m : S3Manager} {id : String} (f : Bool)
    (h : acontains m.buckets id = false) :
    m.delete_bucket id f = (false, m) := by
  unfold S3Manager.delete_bucket
  rw [(acontains_false_iff _ _).1 h]

theorem destroyLoop_skip_s3 (pre : List String) :
    ∀ (m : S3Manager) (bad : String) (post : List String),
      acontains m.buckets bad = false →
      destroyLoop (fun mm n => S3Manager.delete_bucket mm n false) m
          (pre ++ bad :: post)
        = destroyLoop (fun mm n => S3Manager.delete_bucket mm n false) m
          (pre ++ post) := by
  induction pre with
  | nil =>
    intro m bad post h
    simp [destroyLoop, delete_bucket_absent false h]
  | cons x pre ih =>
    intro m bad post h
    have hpres : acontains (m.delete_bucket x false).2.buckets bad
        = false := by
      unfold S3Manager.delete_bucket
      cases hx : alookup m.buckets x with
      | none => simpa using h
      | some b =>
        simp only
        split
        all_goals first
          | exact acontains_aeraseFirst_of_not h
          | exact h
    rw [List.cons_append, List.cons_append]
    simp only [destroyLoop]
    rw [ih _ _ _ hpres]

theorem rds_delete_absent {m : RDSManager} {id : String}
    (h : acontains m.instances id = false) :
    m.delete_instance id = (false, m) := by
  unfold RDSManager.delete_instance
  rw [if_neg (by simp [h])]

theorem destroyLoop_skip_rds (pre : List String) :
    ∀ (m : RDSManager) (bad : String) (post : List String),
      acontains m.instances bad = false →
      destroyLoop RDSManager.delete_instance m (pre ++ bad :: post)
        = destroyLoop RDSManager.delete_instance m (pre ++ post) := by
  induction pre with
  | nil =>
    intro m bad post h
    simp [destroyLoop, rds_delete_absent h]
  | cons x pre ih =>
    intro m bad post h
    have hpres : acontains (m.delete_instance x).2.instances bad = false := by
      unfold RDSManager.delete_instance
      by_cases hx : acontains m.instances x = true
      · rw [if_pos hx]
        exact acontains_aeraseFirst_of_not h
      · rw [if_neg hx]
        exact h
    rw [List.cons_append, List.cons_append]
    simp only [destroyLoop]
    rw [ih _ _ _ hpres]

theorem lambda_delete_absent {m : LambdaManager} {id : String}
    (h : acontains m.functions id = false) :
    m.delete_function id = (false, m) := by
  unfold LambdaManager.delete_function
  rw [if_neg (by simp [h])]

theorem destroyLoop_skip_lambda (pre : List String) :
    ∀ (m : LambdaManager) (bad : String) (post : List String),
      acontains m.functions bad = false →
      destroyLoop LambdaManager.delete_function m (pre ++ bad :: post)
        = destroyLoop LambdaManager.delete_function m (pre ++ post) := by
  induction pre with
  | nil =>
    intro m bad post h
    simp [destroyLoop, lambda_delete_absent h]
  | cons x pre ih =>
    intro m bad post h
    have hpres : acontains (m.delete_function x).2.functions bad = false := by
      unfold LambdaManager.delete_function
      by_cases hx : acontains m.functions x = true
      · rw [if_pos hx]
        exact acontains_aeraseFirst_of_not h
      · rw [if_neg hx]
        exact h
    rw [List.cons_append, List.cons_append]
    simp only [destroyLoop]
    rw [ih _ _ _ hpres]

/-! ## Duplicate-create helper lemmas -/

theorem create_bucket_existing {m : S3Manager} {p : CreateBucketParams}
    (h : acontains m.buckets p.bucket_name = true) :
    m.create_bucket p = (p.bucket_name, m) := by
  unfold S3Manager.create_bucket
  rw [if_pos h]

theorem rds_create_existing {m : RDSManager} {p : RDSCreateParams}
    (h : acontains m.instances p.db_instance_identifier = true) :
    m.create_instance p = (p.db_instance_identifier, m) := by
  unfold RDSManager.create_instance
  rw [if_pos h]

theorem lambda_create_existing {m : LambdaManager} {p : LambdaCreateParams}
    (h : acontains m.functions p.function_name = true) :
    m.create_function p = (p.function_name, m) := by
  unfold LambdaManager.create_function
  rw [if_pos h]

theorem countP_key_append_singleton {α : Type} (l : List (String × α))
    (k : String) (v : α) (h : acontains l k = false) :
    ((l ++ [(k, v)]).countP (fun e => e.1 = k)) = 1 := by
  rw [List.countP_append]
  have h0 : l.countP (fun e => decide (e.1 = k)) = 0 := by
    rw [List.countP_eq_zero]
    simp only [acontains, List.any_eq_false, decide_eq_true_eq] at h
    intro a ha
    simpa using h a ha
  simp [h0]

theorem create_bucket_attrs {m : S3Manager} {p : CreateBucketParams}
    (h : acontains m.buckets p.bucket_name = false) :
    ((m.create_bucket p).2.get_bucket_info p.bucket_name).map
        (fun b => (b.region, b.acl, b.versioning, b.encryption, b.tags))
      = some (p.region, p.acl, p.versioning, p.encryption, p.tags.getD []) := by
  unfold S3Manager.create_bucket S3Manager.get_bucket_info
  rw [if_neg (by simp [h])]
  simp [alookup_aset_self]

theorem rds_create_attrs {m : RDSManager} {p : RDSCreateParams}
    (h : acontains m.instances p.db_instance_identifier = false) :
    ((m.create_instance p).2.get_instance_info p.db_instance_identifier).map
        (fun r => (r.engine, r.engine_version, r.instance_class,
          r.allocated_storage, r.multi_az, r.backup_retention_period,
          r.tags, r.status))
      = some (p.engine, p.engine_version, p.instance_class,
          p.allocated_storage, p.multi_az, p.backup_retention_period,
          p.tags.getD [], "available") := by
  unfold RDSManager.create_instance RDSManager.get_instance_info
  rw [if_neg (by simp [h])]
  simp [alookup_aset_self]

theorem lambda_create_attrs {m : LambdaManager} {p : LambdaCreateParams}
    (h : acontains m.functions p.function_name = false) :
    ((m.create_function p).2.get_function_info p.function_name).map
        (fun f => (f.runtime, f.handler, f.role, f.timeout, f.memory_size,
          f.environment, f.tags))
      = some (p.runtime, p.handler, p.role, p.timeout, p.memory_size,
          p.environment.getD [], p.tags.getD []) := by
  unfold LambdaManager.create_function LambdaManager.get_function_info
  rw [if_neg (by simp [h])]
  simp [alookup_aset_self]

/-! ## Claim theorems -/

/-- C1: the spec claims that after any sequence of `put_object` and
`delete_object` calls (including overwriting puts) a bucket's recorded
`size_bytes` equals the sum of its current objects' sizes.  The code
violates this: an overwriting put removes the old object but adds only the
new object's size, never subtracting the old one.  Concretely: put key "k"
with a 5-byte body, then put key "k" again with a 3-byte body; the bucket
then stores exactly one 3-byte object but records `size_bytes = 8`. -/
theorem put_overwrite_breaks_size_invariant :
    (((((S3Manager.init.create_bucket
            (CreateBucketParams.simple "b")).2.put_object "b" "k" "aaaaa"
              none).2.put_object "b" "k" "aaa" none).2.get_bucket_info
          "b").map (fun b => (b.size_bytes, objectSizeSum b)) = some (8, 3))
    ∧ (8 : Int) ≠ 3 := by
  constructor
  · decide
  · decide

/-- C3: for the three managers with caller-supplied identifiers (storage
bucket, database instance, function), creating twice with the same
identifier returns the identifier both times, leaves the whole manager
state exactly as after the first call, keeps exactly one record under that
identifier, and that record carries the attributes of the FIRST call (the
second call's parameters are ignored). -/
theorem create_duplicate_identifier_first_wins
    (ms : S3Manager) (p q : CreateBucketParams)
    (hname : q.bucket_name = p.bucket_name)
    (hfresh : acontains ms.buckets p.bucket_name = false)
    (mr : RDSManager) (pr qr : RDSCreateParams)
    (hrname : qr.db_instance_identifier = pr.db_instance_identifier)
    (hrfresh : acontains mr.instances pr.db_instance_identifier = false)
    (ml : LambdaManager) (pl ql : LambdaCreateParams)
    (hlname : ql.function_name = pl.function_name)
    (hlfresh : acontains ml.functions pl.function_name = false) :
    ((ms.create_bucket p).1 = p.bucket_name
      ∧ ((ms.create_bucket p).2.create_bucket q).1 = p.bucket_name
      ∧ ((ms.create_bucket p).2.create_bucket q).2 = (ms.create_bucket p).2
      ∧ ((ms.create_bucket p).2.buckets.countP
            (fun e => e.1 = p.bucket_name)) = 1
      ∧ ((ms.create_bucket p).2.get_bucket_info p.bucket_name).map
            (fun b => (b.region, b.acl, b.versioning, b.encryption, b.tags))
          = some (p.region, p.acl, p.versioning, p.encryption,
              p.tags.getD []))
    ∧ ((mr.create_instance pr).1 = pr.db_instance_identifier
      ∧ ((mr.create_instance pr).2.create_instance qr).1
          = pr.db_instance_identifier
      ∧ ((mr.create_instance pr).2.create_instance qr).2
          = (mr.create_instance pr).2
      ∧ ((mr.create_instance pr).2.instances.countP
            (fun e => e.1 = pr.db_instance_identifier)) = 1
      ∧ ((mr.create_instance pr).2.get_instance_info
            pr.db_instance_identifier).map
            (fun r => (r.engine, r.engine_version, r.instance_class,
              r.allocated_storage, r.multi_az, r.backup_retention_period,
              r.tags, r.status))
          = some (pr.engine, pr.engine_version, pr.instance_class,
              pr.allocated_storage, pr.multi_az, pr.backup_retention_period,
              pr.tags.getD [], "available"))
    ∧ ((ml.create_function pl).1 = pl.function_name
      ∧ ((ml.create_function pl).2.create_function ql).1 = pl.function_name
      ∧ ((ml.create_function pl).2.create_function ql).2
          = (ml.create_function pl).2
      ∧ ((ml.create_function pl).2.functions.countP
            (fun e => e.1 = pl.function_name)) = 1
      ∧ ((ml.create_function pl).2.get_function_info pl.function_name).map
            (fun f => (f.runtime, f.handler, f.role, f.timeout,
              f.memory_size, f.environment, f.tags))
          = some (pl.runtime, pl.handler, pl.role, pl.timeout,
              pl.memory_size, pl.environment.getD [], pl.tags.getD [])) := by
  refine ⟨?_, ?_, ?_⟩
  · obtain ⟨b, h1, h2, h3, h4⟩ := create_bucket_of_fresh hfresh
    have hc2 : acontains (ms.create_bucket p).2.buckets q.bucket_name
        = true := by
      rw [hname, h2, acontains_append]
      simp [acontains]
    have hex := create_bucket_existing hc2
    refine ⟨h1, ?_, ?_, ?_, create_bucket_attrs hfresh⟩
    · rw [hex, hname]
    · rw [hex]
    · rw [h2]
      exact countP_key_append_singleton _ _ _ hfresh
  · obtain ⟨r, h1, h2, h3⟩ := rds_create_of_fresh hrfresh
    have hc2 : acontains (mr.create_instance pr).2.instances
        qr.db_instance_identifier = true := by
      rw [hrname, h2, acontains_append]
      simp [acontains]
    have hex := rds_create_existing hc2
    refine ⟨h1, ?_, ?_, ?_, rds_create_attrs hrfresh⟩
    · rw [hex, hrname]
    · rw [hex]
    · rw [h2]
      exact countP_key_append_singleton _ _ _ hrfresh
  · obtain ⟨f, h1, h2, h3⟩ := lambda_create_of_fresh hlfresh
    have hc2 : acontains (ml.create_function pl).2.functions
        ql.function_name = true := by
      rw [hlname, h2, acontains_append]
      simp [acontains]
    have hex := lambda_create_existing hc2
    refine ⟨h1, ?_, ?_, ?_, lambda_create_attrs hlfresh⟩
    · rw [hex, hlname]
    · rw [hex]
    · rw [h2]
      exact countP_key_append_singleton _ _ _ hlfresh

theorem create_duplicate_identifier_first_wins_witness :
    acontains S3Manager.init.buckets "b" = false
    ∧ acontains RDSManager.init.instances "d" = false
    ∧ acontains LambdaManager.init.functions "f" = false
    ∧ ((S3Manager.init.create_bucket
          (CreateBucketParams.simple "b")).2.create_bucket
            ⟨"b", "eu-west-1", "public-read", true, false, none⟩).2
        = (S3Manager.init.create_bucket (CreateBucketParams.simple "b")).2
    ∧ ((RDSManager.init.create_instance
          (RDSCreateParams.simple "d")).2.create_instance
            ⟨"d", "postgres", "15", "db.m5.large", 100, none, "root",
             true, 0, none⟩).2
        = (RDSManager.init.create_instance (RDSCreateParams.simple "d")).2
    ∧ ((LambdaManager.init.create_function
          (LambdaCreateParams.simple "f")).2.create_function
            ⟨"f", "nodejs18.x", "app.main", "arn:x", none, "x", 30, 512,
             none, none⟩).2
        = (LambdaManager.init.create_function
            (LambdaCreateParams.simple "f")).2 := by
  have h := create_duplicate_identifier_first_wins
    S3Manager.init (CreateBucketParams.simple "b")
    ⟨"b", "eu-west-1", "public-read", true, false, none⟩ rfl rfl
    RDSManager.init (RDSCreateParams.simple "d")
    ⟨"d", "postgres", "15", "db.m5.large", 100, none, "root", true, 0, none⟩
    rfl rfl
    LambdaManager.init (LambdaCreateParams.simple "f")
    ⟨"f", "nodejs18.x", "app.main", "arn:x", none, "x", 30, 512, none, none⟩
    rfl rfl
  exact ⟨rfl, rfl, rfl, h.1.2.2.1, h.2.1.2.2.1, h.2.2.2.2.1⟩

/-- C4: for compute and database instances, `stop_instance` returns true and
flips the state to stopped exactly when the current state is "running"
(compute) / "available" (database), `start_instance` is the exact inverse
from "stopped", and in every other case (wrong state or unknown identifier)
the call returns false and the manager, including the instance's state, is
completely unchanged. -/
theorem stop_start_state_machine (me : EC2Manager) (mr : RDSManager)
    (id1 id2 : String) :
    ((∃ i, me.get_instance_info id1 = some i ∧ i.state = "running"
        ∧ (me.stop_instance id1).1 = true
        ∧ (me.stop_instance id1).2.get_instance_info id1
            = some { i with state := "stopped" }
        ∧ ∀ k, k ≠ id1 → (me.stop_instance id1).2.get_instance_info k
            = me.get_instance_info k)
      ∨ (((me.get_instance_info id1).map EC2Instance.state ≠ some "running")
        ∧ me.stop_instance id1 = (false, me)))
    ∧ ((∃ i, me.get_instance_info id1 = some i ∧ i.state = "stopped"
        ∧ (me.start_instance id1).1 = true
        ∧ (me.start_instance id1).2.get_instance_info id1
            = some { i with state := "running" }
        ∧ ∀ k, k ≠ id1 → (me.start_instance id1).2.get_instance_info k
            = me.get_instance_info k)
      ∨ (((me.get_instance_info id1).map EC2Instance.state ≠ some "stopped")
        ∧ me.start_instance id1 = (false, me)))
    ∧ ((∃ r, mr.get_instance_info id2 = some r ∧ r.status = "available"
        ∧ (mr.stop_instance id2).1 = true
        ∧ (mr.stop_instance id2).2.get_instance_info id2
            = some { r with status := "stopped" }
        ∧ ∀ k, k ≠ id2 → (mr.stop_instance id2).2.get_instance_info k
            = mr.get_instance_info k)
      ∨ (((mr.get_instance_info id2).map RDSInstance.status
            ≠ some "available")
        ∧ mr.stop_instance id2 = (false, mr)))
    ∧ ((∃ r, mr.get_instance_info id2 = some r ∧ r.status = "stopped"
        ∧ (mr.start_instance id2).1 = true
        ∧ (mr.start_instance id2).2.get_instance_info id2
            = some { r with status := "available" }
        ∧ ∀ k, k ≠ id2 → (mr.start_instance id2).2.get_instance_info k
            = mr.get_instance_info k)
      ∨ (((mr.get_instance_info id2).map RDSInstance.status
            ≠ some "stopped")
        ∧ mr.start_instance id2 = (false, mr))) := by
  refine ⟨?_, ?_, ?_, ?_⟩
  · cases hx : alookup me.instances id1 with
    | none =>
      right
      have hop : me.stop_instance id1 = (false, me) := by
        unfold EC2Manager.stop_instance
        rw [hx]
      exact ⟨by simp [EC2Manager.get_instance_info, hx], hop⟩
    | some i =>
      by_cases hs : i.state = "running"
      · left
        have hop : me.stop_instance id1
            = (true, { me with instances := (aset me.instances id1
                { i with state := "stopped" }) }) := by
          unfold EC2Manager.stop_instance
          rw [hx]; dsimp only; rw [if_pos hs]
        refine ⟨i, hx, hs, by rw [hop], ?_, ?_⟩
        · rw [hop]
          unfold EC2Manager.get_instance_info
          exact alookup_aset_self _ _ _
        · intro k hk
          rw [hop]
          unfold EC2Manager.get_instance_info
          exact alookup_aset_ne _ _ hk
      · right
        have hop : me.stop_instance id1 = (false, me) := by
          unfold EC2Manager.stop_instance
          rw [hx]; dsimp only; rw [if_neg hs]
        refine ⟨?_, hop⟩
        unfold EC2Manager.get_instance_info
        rw [hx]
        simpa using hs
  · cases hx : alookup me.instances id1 with
    | none =>
      right
      have hop : me.start_instance id1 = (false, me) := by
        unfold EC2Manager.start_instance
        rw [hx]
      exact ⟨by simp [EC2Manager.get_instance_info, hx], hop⟩
    | some i =>
      by_cases hs : i.state = "stopped"
      · left
        have hop : me.start_instance id1
            = (true, { me with instances := (aset me.instances id1
                { i with state := "running" }) }) := by
          unfold EC2Manager.start_instance
          rw [hx]; dsimp only; rw [if_pos hs]
        refine ⟨i, hx, hs, by rw [hop], ?_, ?_⟩
        · rw [hop]
          unfold EC2Manager.get_instance_info
          exact alookup_aset_self _ _ _
        · intro k hk
          rw [hop]
          unfold EC2Manager.get_instance_info
          exact alookup_aset_ne _ _ hk
      · right
        have hop : me.start_instance id1 = (false, me) := by
          unfold EC2Manager.start_instance
          rw [hx]; dsimp only; rw [if_neg hs]
        refine ⟨?_, hop⟩
        unfold EC2Manager.get_instance_info
        rw [hx]
        simpa using hs
  · cases hx : alookup mr.instances id2 with
    | none =>
      right
      have hop : mr.stop_instance id2 = (false, mr) := by
        unfold RDSManager.stop_instance
        rw [hx]
      exact ⟨by simp [RDSManager.get_instance_info, hx], hop⟩
    | some r =>
      by_cases hs : r.status = "available"
      · left
        have hop : mr.stop_instance id2
            = (true, { mr with instances := (aset mr.instances id2
                { r with status := "stopped" }) }) := by
          unfold RDSManager.stop_instance
          rw [hx]; dsimp only; rw [if_pos hs]
        refine ⟨r, hx, hs, by rw [hop], ?_, ?_⟩
        · rw [hop]
          unfold RDSManager.get_instance_info
          exact alookup_aset_self _ _ _
        · intro k hk
          rw [hop]
          unfold RDSManager.get_instance_info
          exact alookup_aset_ne _ _ hk
      · right
        have hop : mr.stop_instance id2 = (false, mr) := by
          unfold RDSManager.stop_instance
          rw [hx]; dsimp only; rw [if_neg hs]
        refine ⟨?_, hop⟩
        unfold RDSManager.get_instance_info
        rw [hx]
        simpa using hs
  · cases hx : alookup mr.instances id2 with
    | none =>
      right
      have hop : mr.start_instance id2 = (false, mr) := by
        unfold RDSManager.start_instance
        rw [hx]
      exact ⟨by simp [RDSManager.get_instance_info, hx], hop⟩
    | some r =>
      by_cases hs : r.status = "stopped"
      · left
        have hop : mr.start_instance id2
            = (true, { mr with instances := (aset mr.instances id2
                { r with status := "available" }) }) := by
          unfold RDSManager.start_instance
          rw [hx]; dsimp only; rw [if_pos hs]
        refine ⟨r, hx, hs, by rw [hop], ?_, ?_⟩
        · rw [hop]
          unfold RDSManager.get_instance_info
          exact alookup_aset_self _ _ _
        · intro k hk
          rw [hop]
          unfold RDSManager.get_instance_info
          exact alookup_aset_ne _ _ hk
      · right
        have hop : mr.start_instance id2 = (false, mr) := by
          unfold RDSManager.start_instance
          rw [hx]; dsimp only; rw [if_neg hs]
        refine ⟨?_, hop⟩
        unfold RDSManager.get_instance_info
        rw [hx]
        simpa using hs

theorem stop_start_state_machine_witness :
    (((EC2Manager.init.create_instance
        EC2CreateParams.simple).2.stop_instance (genInstanceId 0)).1 = true)
    ∧ RDSManager.init.stop_instance "d" = (false, RDSManager.init) := by
  constructor
  · rcases (stop_start_state_machine
        (EC2Manager.init.create_instance EC2CreateParams.simple).2
        RDSManager.init (genInstanceId 0) "d").1 with
      ⟨i, _, _, h1, _⟩ | ⟨hne, _⟩
    · exact h1
    · exact absurd (by decide :
        (((EC2Manager.init.create_instance
            EC2CreateParams.simple).2.get_instance_info
              (genInstanceId 0)).map EC2Instance.state)
          = some "running") hne
  · rcases (stop_start_state_machine EC2Manager.init RDSManager.init
        "a" "d").2.2.1 with ⟨r, hr, _⟩ | ⟨_, hop⟩
    · rw [(by decide : RDSManager.init.get_instance_info "d"
          = (none : Option RDSInstance))] at hr
      exact absurd hr (by simp)
    · exact hop

/-- C5: deleting a non-empty bucket without the force flag returns false and
leaves the manager completely untouched; with `force = true` it returns
true and removes the bucket record (and thereby all its objects) from the
registry, leaving every other bucket unchanged. -/
theorem delete_nonempty_bucket_safety (m : S3Manager) (n : String)
    (b : Bucket) (hb : m.get_bucket_info n = some b) (hne : b.objects ≠ [])
    (hnd : (m.buckets.map Prod.fst).Nodup) :
    m.delete_bucket n false = (false, m)
    ∧ (m.delete_bucket n true).1 = true
    ∧ (m.delete_bucket n true).2.get_bucket_info n = none
    ∧ ∀ k, k ≠ n → (m.delete_bucket n true).2.get_bucket_info k
        = m.get_bucket_info k := by
  have hb' : alookup m.buckets n = some b := hb
  refine ⟨?_, ?_, ?_, ?_⟩
  · unfold S3Manager.delete_bucket
    rw [hb']
    dsimp only
    rw [if_pos ⟨hne, rfl⟩]
  · unfold S3Manager.delete_bucket
    rw [hb']
    dsimp only
    rw [if_neg (by simp)]
  · unfold S3Manager.delete_bucket
    rw [hb']
    dsimp only
    rw [if_neg (by simp)]
    exact alookup_aeraseFirst_self_of_nodup hnd
  · intro k hk
    unfold S3Manager.delete_bucket
    rw [hb']
    dsimp only
    rw [if_neg (by simp)]
    exact alookup_aeraseFirst_ne _ hk

theorem delete_nonempty_bucket_safety_witness :
    (let m2 := ((S3Manager.init.create_bucket
        (CreateBucketParams.simple "b")).2.put_object "b" "k" "x" none).2
     m2.delete_bucket "b" false = (false, m2)
     ∧ (m2.delete_bucket "b" true).1 = true
     ∧ (m2.delete_bucket "b" true).2.get_bucket_info "b" = none) := by
  have h := delete_nonempty_bucket_safety
    ((S3Manager.init.create_bucket
        (CreateBucketParams.simple "b")).2.put_object "b" "k" "x" none).2
    "b"
    { bucket_name := "b", region := "us-east-1", acl := "private",
      versioning := false, encryption := true, tags := [],
      creation_date := 0, objects := [⟨"k", 1, [], 1, 1⟩], size_bytes := 1 }
    (by decide) (by decide) (by decide)
  exact ⟨h.1, h.2.1, h.2.2.1⟩

/-- C7: deleting a compute instance (`terminate_instance`) flips its state
to "terminated" but keeps the record in the registry — it stays visible to
`get_instance_info` and `list_instances`, and the registry size does not
shrink — whereas the delete operations of the other three kinds (database,
function, and bucket with force) remove the record outright. -/
theorem compute_delete_keeps_record (me : EC2Manager) (id : String)
    (i : EC2Instance) (hi : me.get_instance_info id = some i)
    (mr : RDSManager) (idr : String) (hr : acontains mr.instances idr = true)
    (hrnd : (mr.instances.map Prod.fst).Nodup)
    (ml : LambdaManager) (idl : String)
    (hl : acontains ml.functions idl = true)
    (hlnd : (ml.functions.map Prod.fst).Nodup)
    (ms : S3Manager) (n : String) (hs : acontains ms.buckets n = true)
    (hsnd : (ms.buckets.map Prod.fst).Nodup) :
    (me.terminate_instance id).1 = true
    ∧ (me.terminate_instance id).2.get_instance_info id
        = some { i with state := "terminated" }
    ∧ { i with state := "terminated" }
        ∈ (me.terminate_instance id).2.list_instances none
    ∧ (me.terminate_instance id).2.instances.length = me.instances.length
    ∧ (mr.delete_instance idr).1 = true
    ∧ (mr.delete_instance idr).2.get_instance_info idr = none
    ∧ (ml.delete_function idl).1 = true
    ∧ (ml.delete_function idl).2.get_function_info idl = none
    ∧ (ms.delete_bucket n true).1 = true
    ∧ (ms.delete_bucket n true).2.get_bucket_info n = none := by
  have hi' : alookup me.instances id = some i := hi
  have hstep := terminate_step hi'
  have hcont : acontains me.instances id = true :=
    (acontains_true_iff_lookup _ _).2 ⟨i, hi'⟩
  obtain ⟨bs, hbs⟩ := (acontains_true_iff_lookup _ _).1 hs
  refine ⟨by rw [hstep], ?_, ?_, ?_, ?_, ?_, ?_, ?_, ?_, ?_⟩
  · rw [hstep]
    exact alookup_aset_self _ _ _
  · rw [hstep]
    unfold EC2Manager.list_instances
    have := alookup_mem_values
      (alookup_aset_self me.instances id { i with state := "terminated" })
    simpa using this
  · rw [hstep]
    exact length_aset_of_contains _ hcont
  · unfold RDSManager.delete_instance
    rw [if_pos hr]
  · unfold RDSManager.delete_instance
    rw [if_pos hr]
    exact alookup_aeraseFirst_self_of_nodup hrnd
  · unfold LambdaManager.delete_function
    rw [if_pos hl]
  · unfold LambdaManager.delete_function
    rw [if_pos hl]
    exact alookup_aeraseFirst_self_of_nodup hlnd
  · unfold S3Manager.delete_bucket
    rw [hbs]
    dsimp only
    rw [if_neg (by simp)]
  · unfold S3Manager.delete_bucket
    rw [hbs]
    dsimp only
    rw [if_neg (by simp)]
    exact alookup_aeraseFirst_self_of_nodup hsnd

theorem compute_delete_keeps_record_witness :
    (let me := (EC2Manager.init.create_instance EC2CreateParams.simple).2
     (me.terminate_instance (genInstanceId 0)).1 = true
     ∧ (me.terminate_instance (genInstanceId 0)).2.instances.length
         = me.instances.length)
    ∧ ((RDSManager.init.create_instance
        (RDSCreateParams.simple "d")).2.delete_instance
          "d").2.get_instance_info "d" = none
    ∧ ((LambdaManager.init.create_function
        (LambdaCreateParams.simple "f")).2.delete_function
          "f").2.get_function_info "f" = none
    ∧ ((S3Manager.init.create_bucket
        (CreateBucketParams.simple "b")).2.delete_bucket
          "b" true).2.get_bucket_info "b" = none := by
  have h := compute_delete_keeps_record
    (EC2Manager.init.create_instance EC2CreateParams.simple).2
    (genInstanceId 0)
    { instance_id := genInstanceId 0, instance_type := "t2.micro",
      ami_id := "ami-default", key_name := none, security_groups := [],
      tags := [], state := "running", launch_time := 0, public_ip := 0,
      private_ip := 0 }
    (by decide)
    (RDSManager.init.create_instance (RDSCreateParams.simple "d")).2 "d"
    (by decide) (by decide)
    (LambdaManager.init.create_function (LambdaCreateParams.simple "f")).2
    "f" (by decide) (by decide)
    (S3Manager.init.create_bucket (CreateBucketParams.simple "b")).2 "b"
    (by decide) (by decide)
  exact ⟨⟨h.1, h.2.2.2.1⟩, h.2.2.2.2.2.1, h.2.2.2.2.2.2.2.1,
    h.2.2.2.2.2.2.2.2.2⟩

/-- C9: `modify_instance` on a registered database instance always returns
true; a falsy new value is silently ignored for `instance_class` (empty
string) and `allocated_storage` (0) because the source tests Python
truthiness (`if instance_class:` / `if allocated_storage:`), while
`backup_retention_period = 0` IS applied (`is not None` test); omitted
(`none`) parameters always leave their field unchanged. -/
theorem modify_instance_truthiness (m : RDSManager) (id : String)
    (r : RDSInstance) (h : m.get_instance_info id = some r)
    (ic : Option String) (sto bp : Option Int) :
    (m.modify_instance id ic sto bp).1 = true
    ∧ ((ic = none ∨ ic = some "") →
        ((m.modify_instance id ic sto bp).2.get_instance_info id).map
          RDSInstance.instance_class = some r.instance_class)
    ∧ (∀ s, ic = some s → s ≠ "" →
        ((m.modify_instance id ic sto bp).2.get_instance_info id).map
          RDSInstance.instance_class = some s)
    ∧ ((sto = none ∨ sto = some 0) →
        ((m.modify_instance id ic sto bp).2.get_instance_info id).map
          RDSInstance.allocated_storage = some r.allocated_storage)
    ∧ (∀ x, sto = some x → x ≠ 0 →
        ((m.modify_instance id ic sto bp).2.get_instance_info id).map
          RDSInstance.allocated_storage = some x)
    ∧ (bp = none →
        ((m.modify_instance id ic sto bp).2.get_instance_info id).map
          RDSInstance.backup_retention_period
            = some r.backup_retention_period)
    ∧ (∀ x, bp = some x →
        ((m.modify_instance id ic sto bp).2.get_instance_info id).map
          RDSInstance.backup_retention_period = some x) := by
  have h' : alookup m.instances id = some r := h
  refine ⟨?_, ?_, ?_, ?_, ?_, ?_, ?_⟩
  · unfold RDSManager.modify_instance
    rw [h']
  all_goals
    unfold RDSManager.modify_instance RDSManager.get_instance_info
    rw [h']
    dsimp only
    rw [alookup_aset_self]
  · rintro (hic | hic) <;> subst hic <;>
      rcases sto with _ | x <;> rcases bp with _ | y <;>
      dsimp only <;> (try split_ifs) <;> simp_all
  · intro s hic hs
    subst hic
    rcases sto with _ | x <;> rcases bp with _ | y <;>
      dsimp only <;> (try split_ifs) <;> simp_all
  · rintro (hsto | hsto) <;> subst hsto <;>
      rcases ic with _ | s <;> rcases bp with _ | y <;>
      dsimp only <;> (try split_ifs) <;> simp_all
  · intro x hsto hx
    subst hsto
    rcases ic with _ | s <;> rcases bp with _ | y <;>
      dsimp only <;> (try split_ifs) <;> simp_all
  · intro hbp
    subst hbp
    rcases ic with _ | s <;> rcases sto with _ | x <;>
      dsimp only <;> (try split_ifs) <;> simp_all
  · intro x hbp
    subst hbp
    rcases ic with _ | s <;> rcases sto with _ | y <;>
      dsimp only <;> (try split_ifs) <;> simp_all

theorem modify_instance_truthiness_witness :
    ((RDSManager.init.create_instance
        (RDSCreateParams.simple "d")).2.modify_instance "d" (some "")
          (some 0) (some 0)).1 = true
    ∧ (((RDSManager.init.create_instance
        (RDSCreateParams.simple "d")).2.modify_instance "d" (some "")
          (some 0) (some 0)).2.get_instance_info "d").map
        RDSInstance.instance_class = some "db.t3.micro"
    ∧ (((RDSManager.init.create_instance
        (RDSCreateParams.simple "d")).2.modify_instance "d" (some "")
          (some 0) (some 0)).2.get_instance_info "d").map
        RDSInstance.allocated_storage = some 20
    ∧ (((RDSManager.init.create_instance
        (RDSCreateParams.simple "d")).2.modify_instance "d" (some "")
          (some 0) (some 0)).2.get_instance_info "d").map
        RDSInstance.backup_retention_period = some 0 := by
  have h := modify_instance_truthiness
    (RDSManager.init.create_instance (RDSCreateParams.simple "d")).2 "d"
    { db_instance_identifier := "d", engine := "mysql",
      engine_version := "8.0", instance_class := "db.t3.micro",
      allocated_storage := 20, db_name := "d", master_username := "admin",
      multi_az := false, backup_retention_period := 7, tags := [],
      status := "available", endpoint := 0, port := 3306,
      creation_time := 0 }
    (by decide) (some "") (some 0) (some 0)
  exact ⟨h.1, h.2.1 (Or.inr rfl), h.2.2.2.1 (Or.inr rfl),
    h.2.2.2.2.2.2 0 rfl⟩

/-- C10: `terminate_instance` returns true for any identifier present in
the compute registry regardless of its current state, leaves the state
"terminated", returns true again on a repeat call (state stays
"terminated"), and `destroy_infrastructure` counts each repeat call as a
success (the list [id, id] yields ec2_terminated = 2). -/
theorem terminate_true_regardless_of_state (m : EC2Manager) (id : String)
    (i : EC2Instance) (h : m.get_instance_info id = some i)
    (a : AWSAutomation) (ha : a.ec2 = m) :
    (m.terminate_instance id).1 = true
    ∧ (m.terminate_instance id).2.get_instance_info id
        = some { i with state := "terminated" }
    ∧ ((m.terminate_instance id).2.terminate_instance id).1 = true
    ∧ ((m.terminate_instance id).2.terminate_instance
        id).2.get_instance_info id = some { i with state := "terminated" }
    ∧ (a.destroy_infrastructure
        ⟨[id, id], [], [], []⟩).1.ec2_terminated = 2 := by
  have h' : alookup m.instances id = some i := h
  have h1 := terminate_step h'
  have h2 : alookup (m.terminate_instance id).2.instances id
      = some { i with state := "terminated" } := by
    rw [h1]
    exact alookup_aset_self _ _ _
  have h3 := terminate_step h2
  refine ⟨by rw [h1], h2, by rw [h3], ?_, ?_⟩
  · show alookup ((m.terminate_instance id).2.terminate_instance
        id).2.instances id = some { i with state := "terminated" }
    rw [h3]
    exact alookup_aset_self _ _ _
  · unfold AWSAutomation.destroy_infrastructure
    rw [ha]
    have h3' := h3
    rw [h1] at h3'
    simp only [destroyLoop, h1, h3']
    simp

theorem terminate_true_regardless_of_state_witness :
    (((EC2Manager.init.create_instance
        EC2CreateParams.simple).2.terminate_instance (genInstanceId 0)).1
      = true)
    ∧ ((((EC2Manager.init.create_instance
        EC2CreateParams.simple).2.terminate_instance
          (genInstanceId 0)).2.terminate_instance (genInstanceId 0)).1
      = true)
    ∧ ((AWSAutomation.mk
          (EC2Manager.init.create_instance EC2CreateParams.simple).2
          S3Manager.init RDSManager.init
          LambdaManager.init).destroy_infrastructure
        ⟨[genInstanceId 0, genInstanceId 0], [], [], []⟩).1.ec2_terminated
      = 2 := by
  have h := terminate_true_regardless_of_state
    (EC2Manager.init.create_instance EC2CreateParams.simple).2
    (genInstanceId 0)
    { instance_id := genInstanceId 0, instance_type := "t2.micro",
      ami_id := "ami-default", key_name := none, security_groups := [],
      tags := [], state := "running", launch_time := 0, public_ip := 0,
      private_ip := 0 }
    (by decide)
    (AWSAutomation.mk
      (EC2Manager.init.create_instance EC2CreateParams.simple).2
      S3Manager.init RDSManager.init LambdaManager.init)
    rfl
  exact ⟨h.1, h.2.2.1, h.2.2.2.2⟩

/-- C6: `provision_infrastructure` handles the four kind keys in the fixed
source order (compute, storage, database, function); an absent kind key is
skipped without error (empty output list, manager untouched); within each
present kind the parameter maps are processed in input order, the returned
identifier list matches the input list in length and order (for the three
caller-named kinds it is exactly the list of supplied identifiers), and the
manager's registry gains exactly that many records, assuming the supplied
identifiers are distinct and not already registered. -/
theorem provision_fan_out (a : AWSAutomation) (cfg : InfrastructureConfig)
    (hwf : a.ec2.WF)
    (hs3 : ∀ ps, cfg.s3 = some ps →
      (ps.map CreateBucketParams.bucket_name).Nodup
      ∧ ∀ p ∈ ps, acontains a.s3.buckets p.bucket_name = false)
    (hrds : ∀ ps, cfg.rds = some ps →
      (ps.map RDSCreateParams.db_instance_identifier).Nodup
      ∧ ∀ p ∈ ps, acontains a.rds.instances p.db_instance_identifier
          = false)
    (hlam : ∀ ps, cfg.lambdaFns = some ps →
      (ps.map LambdaCreateParams.function_name).Nodup
      ∧ ∀ p ∈ ps, acontains a.lambda_mgr.functions p.function_name
          = false) :
    ((cfg.ec2 = none →
        (a.provision_infrastructure cfg).1.ec2_instances = []
        ∧ (a.provision_infrastructure cfg).2.ec2 = a.ec2)
      ∧ (∀ ps, cfg.ec2 = some ps →
          (a.provision_infrastructure cfg).1.ec2_instances.length
              = ps.length
          ∧ (a.provision_infrastructure cfg).2.ec2.instances.length
              = a.ec2.instances.length + ps.length))
    ∧ ((cfg.s3 = none →
        (a.provision_infrastructure cfg).1.s3_buckets = []
        ∧ (a.provision_infrastructure cfg).2.s3 = a.s3)
      ∧ (∀ ps, cfg.s3 = some ps →
          (a.provision_infrastructure cfg).1.s3_buckets
              = ps.map CreateBucketParams.bucket_name
          ∧ (a.provision_infrastructure cfg).2.s3.buckets.length
              = a.s3.buckets.length + ps.length))
    ∧ ((cfg.rds = none →
        (a.provision_infrastructure cfg).1.rds_instances = []
        ∧ (a.provision_infrastructure cfg).2.rds = a.rds)
      ∧ (∀ ps, cfg.rds = some ps →
          (a.provision_infrastructure cfg).1.rds_instances
              = ps.map RDSCreateParams.db_instance_identifier
          ∧ (a.provision_infrastructure cfg).2.rds.instances.length
              = a.rds.instances.length + ps.length))
    ∧ ((cfg.lambdaFns = none →
        (a.provision_infrastructure cfg).1.lambda_functions = []
        ∧ (a.provision_infrastructure cfg).2.lambda_mgr = a.lambda_mgr)
      ∧ (∀ ps, cfg.lambdaFns = some ps →
          (a.provision_infrastructure cfg).1.lambda_functions
              = ps.map LambdaCreateParams.function_name
          ∧ (a.provision_infrastructure cfg).2.lambda_mgr.functions.length
              = a.lambda_mgr.functions.length + ps.length)) := by
  refine ⟨⟨?_, ?_⟩, ⟨?_, ?_⟩, ⟨?_, ?_⟩, ⟨?_, ?_⟩⟩
  · intro hcfg
    simp [AWSAutomation.provision_infrastructure, hcfg]
  · intro ps hcfg
    obtain ⟨es, he1, he2, _⟩ := provisionLoop_ec2 ps a.ec2 hwf
    have hlen : es.length = ps.length := by
      have := congrArg List.length he2
      simpa using this
    constructor
    · simp [AWSAutomation.provision_infrastructure, hcfg, he1, hlen]
    · simp [AWSAutomation.provision_infrastructure, hcfg, he1, hlen]
  · intro hcfg
    simp [AWSAutomation.provision_infrastructure, hcfg]
  · intro ps hcfg
    obtain ⟨hnd, hfresh⟩ := hs3 ps hcfg
    obtain ⟨es, he1, he2, _⟩ := provisionLoop_s3 ps a.s3 hfresh hnd
    have hlen : es.length = ps.length := by
      have := congrArg List.length he2
      simpa using this
    constructor
    · simp [AWSAutomation.provision_infrastructure, hcfg, he1]
    · simp [AWSAutomation.provision_infrastructure, hcfg, he1, hlen]
  · intro hcfg
    simp [AWSAutomation.provision_infrastructure, hcfg]
  · intro ps hcfg
    obtain ⟨hnd, hfresh⟩ := hrds ps hcfg
    obtain ⟨es, he1, he2⟩ := provisionLoop_rds ps a.rds hfresh hnd
    have hlen : es.length = ps.length := by
      have := congrArg List.length he2
      simpa using this
    constructor
    · simp [AWSAutomation.provision_infrastructure, hcfg, he1]
    · simp [AWSAutomation.provision_infrastructure, hcfg, he1, hlen]
  · intro hcfg
    simp [AWSAutomation.provision_infrastructure, hcfg]
  · intro ps hcfg
    obtain ⟨hnd, hfresh⟩ := hlam ps hcfg
    obtain ⟨es, he1, he2⟩ := provisionLoop_lambda ps a.lambda_mgr hfresh hnd
    have hlen : es.length = ps.length := by
      have := congrArg List.length he2
      simpa using this
    constructor
    · simp [AWSAutomation.provision_infrastructure, hcfg, he1]
    · simp [AWSAutomation.provision_infrastructure, hcfg, he1, hlen]

theorem provision_fan_out_witness :
    (AWSAutomation.init.provision_infrastructure
      ⟨some [EC2CreateParams.simple, EC2CreateParams.simple],
       some [CreateBucketParams.simple "b"],
       some [RDSCreateParams.simple "d"],
       some [LambdaCreateParams.simple "f"]⟩).1.ec2_instances.length = 2
    ∧ (AWSAutomation.init.provision_infrastructure
      ⟨some [EC2CreateParams.simple, EC2CreateParams.simple],
       some [CreateBucketParams.simple "b"],
       some [RDSCreateParams.simple "d"],
       some [LambdaCreateParams.simple "f"]⟩).1.s3_buckets = ["b"]
    ∧ (AWSAutomation.init.provision_infrastructure
      ⟨some [EC2CreateParams.simple, EC2CreateParams.simple],
       some [CreateBucketParams.simple "b"],
       some [RDSCreateParams.simple "d"],
       some [LambdaCreateParams.simple "f"]⟩).1.rds_instances = ["d"]
    ∧ (AWSAutomation.init.provision_infrastructure
      ⟨some [EC2CreateParams.simple, EC2CreateParams.simple],
       some [CreateBucketParams.simple "b"],
       some [RDSCreateParams.simple "d"],
       some [LambdaCreateParams.simple "f"]⟩).1.lambda_functions = ["f"]
    ∧ (AWSAutomation.init.provision_infrastructure
      ⟨some [EC2CreateParams.simple, EC2CreateParams.simple],
       some [CreateBucketParams.simple "b"],
       some [RDSCreateParams.simple "d"],
       some [LambdaCreateParams.simple "f"]⟩).2.s3.buckets.length = 1 := by
  have h := provision_fan_out AWSAutomation.init
    ⟨some [EC2CreateParams.simple, EC2CreateParams.simple],
     some [CreateBucketParams.simple "b"],
     some [RDSCreateParams.simple "d"],
     some [LambdaCreateParams.simple "f"]⟩
    (fun j _ => rfl)
    (by rintro ps hps; cases hps; exact ⟨by decide, by decide⟩)
    (by rintro ps hps; cases hps; exact ⟨by decide, by decide⟩)
    (by rintro ps hps; cases hps; exact ⟨by decide, by decide⟩)
  exact ⟨(h.1.2 _ rfl).1, (h.2.1.2 _ rfl).1, (h.2.2.1.2 _ rfl).1,
    (h.2.2.2.2 _ rfl).1, (h.2.1.2 _ rfl).2⟩

/-- C2 counterexample: the claim fails on the code at a concrete input, in
two ways at once.  With one compute entry and two storage entries that
share the bucket name "b", `provision` returns a storage identifier list of
length 2, but `destroy` on that exact result deletes only 1 bucket (the
second delete of "b" reports not-found), and after `destroy` the compute
registry is NOT empty: the terminated instance record is retained. -/
theorem destroy_after_provision_counterexample :
    ((AWSAutomation.init.provision_infrastructure
        ⟨some [EC2CreateParams.simple],
         some [CreateBucketParams.simple "b", CreateBucketParams.simple "b"],
         none, none⟩).1.s3_buckets.length = 2)
    ∧ (((AWSAutomation.init.provision_infrastructure
        ⟨some [EC2CreateParams.simple],
         some [CreateBucketParams.simple "b", CreateBucketParams.simple "b"],
         none, none⟩).2.destroy_infrastructure
          (AWSAutomation.init.provision_infrastructure
        ⟨some [EC2CreateParams.simple],
         some [CreateBucketParams.simple "b", CreateBucketParams.simple "b"],
         none, none⟩).1).1.s3_deleted = 1)
    ∧ (((AWSAutomation.init.provision_infrastructure
        ⟨some [EC2CreateParams.simple],
         some [CreateBucketParams.simple "b", CreateBucketParams.simple "b"],
         none, none⟩).2.destroy_infrastructure
          (AWSAutomation.init.provision_infrastructure
        ⟨some [EC2CreateParams.simple],
         some [CreateBucketParams.simple "b", CreateBucketParams.simple "b"],
         none, none⟩).1).2.ec2.instances.length = 1) := by
  refine ⟨?_, ?_, ?_⟩ <;> decide

/-- C2 (amended): for a provisioning configuration whose caller-supplied
identifiers are distinct within each kind, `destroy_infrastructure` on the
exact result of a prior `provision_infrastructure` (fresh managers, no
intervening operations) returns, for each kind, a count equal to the length
of that kind's identifier list; afterward the storage, database and
function registries are empty, while the compute registry is NOT empty: it
retains one record per provisioned instance, each in state "terminated". -/
theorem destroy_after_provision_roundtrip (cfg : InfrastructureConfig)
    (hs3 : ∀ ps, cfg.s3 = some ps →
      (ps.map CreateBucketParams.bucket_name).Nodup)
    (hrds : ∀ ps, cfg.rds = some ps →
      (ps.map RDSCreateParams.db_instance_identifier).Nodup)
    (hlam : ∀ ps, cfg.lambdaFns = some ps →
      (ps.map LambdaCreateParams.function_name).Nodup)
    (pr : ResourceIds × AWSAutomation)
    (hpr : pr = AWSAutomation.init.provision_infrastructure cfg)
    (ds : DestroyCounts × AWSAutomation)
    (hds : ds = pr.2.destroy_infrastructure pr.1) :
    ds.1.ec2_terminated = pr.1.ec2_instances.length
    ∧ ds.1.s3_deleted = pr.1.s3_buckets.length
    ∧ ds.1.rds_deleted = pr.1.rds_instances.length
    ∧ ds.1.lambda_deleted = pr.1.lambda_functions.length
    ∧ ds.2.s3.buckets = []
    ∧ ds.2.rds.instances = []
    ∧ ds.2.lambda_mgr.functions = []
    ∧ ds.2.ec2.instances.length = pr.1.ec2_instances.length
    ∧ ∀ e ∈ ds.2.ec2.instances, e.2.state = "terminated" := by
  subst hpr
  subst hds
  have hwf0 : EC2Manager.WF AWSAutomation.init.ec2 := fun j _ => rfl
  have HEC2 : (destroyLoop EC2Manager.terminate_instance
        (AWSAutomation.init.provision_infrastructure cfg).2.ec2
        (AWSAutomation.init.provision_infrastructure
          cfg).1.ec2_instances).1
      = (AWSAutomation.init.provision_infrastructure
          cfg).1.ec2_instances.length
    ∧ (destroyLoop EC2Manager.terminate_instance
        (AWSAutomation.init.provision_infrastructure cfg).2.ec2
        (AWSAutomation.init.provision_infrastructure
          cfg).1.ec2_instances).2.instances.length
      = (AWSAutomation.init.provision_infrastructure
          cfg).1.ec2_instances.length
    ∧ ∀ e ∈ (destroyLoop EC2Manager.terminate_instance
        (AWSAutomation.init.provision_infrastructure cfg).2.ec2
        (AWSAutomation.init.provision_infrastructure
          cfg).1.ec2_instances).2.instances,
        e.2.state = "terminated" := by
    rcases hc : cfg.ec2 with _ | ps
    · have h1 : (AWSAutomation.init.provision_infrastructure
          cfg).1.ec2_instances = [] := by
        simp [AWSAutomation.provision_infrastructure, hc]
      have h2 : (AWSAutomation.init.provision_infrastructure cfg).2.ec2
          = AWSAutomation.init.ec2 := by
        simp [AWSAutomation.provision_infrastructure, hc]
      rw [h1, h2]
      refine ⟨rfl, rfl, ?_⟩
      intro e he
      simp [destroyLoop, AWSAutomation.init, EC2Manager.init] at he
    · obtain ⟨es, he1, he2, _⟩ :=
        provisionLoop_ec2 ps AWSAutomation.init.ec2 hwf0
      have h1 : (AWSAutomation.init.provision_infrastructure
          cfg).1.ec2_instances = es.map Prod.fst := by
        simp [AWSAutomation.provision_infrastructure, hc, he1]
      have h2 : (AWSAutomation.init.provision_infrastructure cfg).2.ec2
          = { instances := AWSAutomation.init.ec2.instances ++ es,
              nextTick := AWSAutomation.init.ec2.nextTick + ps.length } := by
        simp [AWSAutomation.provision_infrastructure, hc, he1]
      have hkeys : ({ instances := AWSAutomation.init.ec2.instances ++ es,
                      nextTick := AWSAutomation.init.ec2.nextTick
                        + ps.length } : EC2Manager).instances.map Prod.fst
          = es.map Prod.fst := by
        simp [AWSAutomation.init, EC2Manager.init]
      have hnd : (es.map Prod.fst).Nodup := by
        rw [he2]
        refine List.Nodup.map ?_ (List.nodup_range _)
        intro x y hxy
        have := genInstanceId_inj hxy
        omega
      have hmem : ∀ id ∈ es.map Prod.fst,
          acontains ({ instances := AWSAutomation.init.ec2.instances ++ es,
                       nextTick := AWSAutomation.init.ec2.nextTick
                         + ps.length } : EC2Manager).instances id
            = true := by
        intro id hid
        rw [acontains_true_iff_mem_keys, hkeys]
        exact hid
      obtain ⟨hA, hB, hC⟩ := destroyLoop_terminate (es.map Prod.fst)
        { instances := AWSAutomation.init.ec2.instances ++ es,
          nextTick := AWSAutomation.init.ec2.nextTick + ps.length }
        hmem (by rw [hkeys]; exact hnd)
      rw [h1, h2]
      refine ⟨hA, ?_, ?_⟩
      · have hlen := congrArg List.length hB
        simp only [List.length_map] at hlen
        rw [hlen]
        have := congrArg List.length hkeys
        simpa using this
      · intro e he
        have hekey : e.1 ∈ es.map Prod.fst := by
          have hm : e.1 ∈ (destroyLoop EC2Manager.terminate_instance
              { instances := AWSAutomation.init.ec2.instances ++ es,
                nextTick := AWSAutomation.init.ec2.nextTick + ps.length }
              (es.map Prod.fst)).2.instances.map Prod.fst :=
            List.mem_map.mpr ⟨e, he, rfl⟩
          rw [hB, hkeys] at hm
          exact hm
        exact (hC e he).1 hekey
  have HS3 : (destroyLoop (fun mm n => S3Manager.delete_bucket mm n false)
        (AWSAutomation.init.provision_infrastructure cfg).2.s3
        (AWSAutomation.init.provision_infrastructure cfg).1.s3_buckets).1
      = (AWSAutomation.init.provision_infrastructure
          cfg).1.s3_buckets.length
    ∧ (destroyLoop (fun mm n => S3Manager.delete_bucket mm n false)
        (AWSAutomation.init.provision_infrastructure cfg).2.s3
        (AWSAutomation.init.provision_infrastructure
          cfg).1.s3_buckets).2.buckets = [] := by
    rcases hc : cfg.s3 with _ | ps
    · have h1 : (AWSAutomation.init.provision_infrastructure
          cfg).1.s3_buckets = [] := by
        simp [AWSAutomation.provision_infrastructure, hc]
      have h2 : (AWSAutomation.init.provision_infrastructure cfg).2.s3
          = AWSAutomation.init.s3 := by
        simp [AWSAutomation.provision_infrastructure, hc]
      rw [h1, h2]
      exact ⟨rfl, rfl⟩
    · obtain ⟨es, he1, he2, he3⟩ := provisionLoop_s3 ps
        AWSAutomation.init.s3 (fun p _ => rfl) (hs3 ps hc)
      have h1 : (AWSAutomation.init.provision_infrastructure
          cfg).1.s3_buckets = ps.map CreateBucketParams.bucket_name := by
        simp [AWSAutomation.provision_infrastructure, hc, he1]
      have h2 : (AWSAutomation.init.provision_infrastructure cfg).2.s3
          = { buckets := AWSAutomation.init.s3.buckets ++ es,
              nextTick := AWSAutomation.init.s3.nextTick + ps.length } := by
        simp [AWSAutomation.provision_infrastructure, hc, he1]
      rw [h1, h2]
      exact destroyLoop_s3_delete (ps.map CreateBucketParams.bucket_name)
        es _ (by simp [AWSAutomation.init, S3Manager.init]) he2
        (hs3 ps hc) he3
  have HRDS : (destroyLoop RDSManager.delete_instance
        (AWSAutomation.init.provision_infrastructure cfg).2.rds
        (AWSAutomation.init.provision_infrastructure
          cfg).1.rds_instances).1
      = (AWSAutomation.init.provision_infrastructure
          cfg).1.rds_instances.length
    ∧ (destroyLoop RDSManager.delete_instance
        (AWSAutomation.init.provision_infrastructure cfg).2.rds
        (AWSAutomation.init.provision_infrastructure
          cfg).1.rds_instances).2.instances = [] := by
    rcases hc : cfg.rds with _ | ps
    · have h1 : (AWSAutomation.init.provision_infrastructure
          cfg).1.rds_instances = [] := by
        simp [AWSAutomation.provision_infrastructure, hc]
      have h2 : (AWSAutomation.init.provision_infrastructure cfg).2.rds
          = AWSAutomation.init.rds := by
        simp [AWSAutomation.provision_infrastructure, hc]
      rw [h1, h2]
      exact ⟨rfl, rfl⟩
    · obtain ⟨es, he1, he2⟩ := provisionLoop_rds ps
        AWSAutomation.init.rds (fun p _ => rfl) (hrds ps hc)
      have h1 : (AWSAutomation.init.provision_infrastructure
          cfg).1.rds_instances
          = ps.map RDSCreateParams.db_instance_identifier := by
        simp [AWSAutomation.provision_infrastructure, hc, he1]
      have h2 : (AWSAutomation.init.provision_infrastructure cfg).2.rds
          = { instances := AWSAutomation.init.rds.instances ++ es,
              nextTick := AWSAutomation.init.rds.nextTick + ps.length } := by
        simp [AWSAutomation.provision_infrastructure, hc, he1]
      rw [h1, h2]
      exact destroyLoop_rds_delete
        (ps.map RDSCreateParams.db_instance_identifier) es _
        (by simp [AWSAutomation.init, RDSManager.init]) he2 (hrds ps hc)
  have HLAM : (destroyLoop LambdaManager.delete_function
        (AWSAutomation.init.provision_infrastructure cfg).2.lambda_mgr
        (AWSAutomation.init.provision_infrastructure
          cfg).1.lambda_functions).1
      = (AWSAutomation.init.provision_infrastructure
          cfg).1.lambda_functions.length
    ∧ (destroyLoop LambdaManager.delete_function
        (AWSAutomation.init.provision_infrastructure cfg).2.lambda_mgr
        (AWSAutomation.init.provision_infrastructure
          cfg).1.lambda_functions).2.functions = [] := by
    rcases hc : cfg.lambdaFns with _ | ps
    · have h1 : (AWSAutomation.init.provision_infrastructure
          cfg).1.lambda_functions = [] := by
        simp [AWSAutomation.provision_infrastructure, hc]
      have h2 : (AWSAutomation.init.provision_infrastructure
          cfg).2.lambda_mgr = AWSAutomation.init.lambda_mgr := by
        simp [AWSAutomation.provision_infrastructure, hc]
      rw [h1, h2]
      exact ⟨rfl, rfl⟩
    · obtain ⟨es, he1, he2⟩ := provisionLoop_lambda ps
        AWSAutomation.init.lambda_mgr (fun p _ => rfl) (hlam ps hc)
      have h1 : (AWSAutomation.init.provision_infrastructure
          cfg).1.lambda_functions
          = ps.map LambdaCreateParams.function_name := by
        simp [AWSAutomation.provision_infrastructure, hc, he1]
      have h2 : (AWSAutomation.init.provision_infrastructure
          cfg).2.lambda_mgr
          = { functions := AWSAutomation.init.lambda_mgr.functions ++ es,
              nextTick := AWSAutomation.init.lambda_mgr.nextTick
                + ps.length } := by
        simp [AWSAutomation.provision_infrastructure, hc, he1]
      rw [h1, h2]
      exact destroyLoop_lambda_delete
        (ps.map LambdaCreateParams.function_name) es _
        (by simp [AWSAutomation.init, LambdaManager.init]) he2 (hlam ps hc)
  exact ⟨HEC2.1, HS3.1, HRDS.1, HLAM.1, HS3.2, HRDS.2, HLAM.2,
    HEC2.2.1, HEC2.2.2⟩

theorem destroy_after_provision_roundtrip_witness :
    ((AWSAutomation.init.provision_infrastructure
        ⟨some [EC2CreateParams.simple], some [CreateBucketParams.simple "b"],
         some [RDSCreateParams.simple "d"],
         some [LambdaCreateParams.simple "f"]⟩).2.destroy_infrastructure
      (AWSAutomation.init.provision_infrastructure
        ⟨some [EC2CreateParams.simple], some [CreateBucketParams.simple "b"],
         some [RDSCreateParams.simple "d"],
         some [LambdaCreateParams.simple "f"]⟩).1).1.ec2_terminated = 1
    ∧ ((AWSAutomation.init.provision_infrastructure
        ⟨some [EC2CreateParams.simple], some [CreateBucketParams.simple "b"],
         some [RDSCreateParams.simple "d"],
         some [LambdaCreateParams.simple "f"]⟩).2.destroy_infrastructure
      (AWSAutomation.init.provision_infrastructure
        ⟨some [EC2CreateParams.simple], some [CreateBucketParams.simple "b"],
         some [RDSCreateParams.simple "d"],
         some [LambdaCreateParams.simple "f"]⟩).1).1.s3_deleted = 1
    ∧ ((AWSAutomation.init.provision_infrastructure
        ⟨some [EC2CreateParams.simple], some [CreateBucketParams.simple "b"],
         some [RDSCreateParams.simple "d"],
         some [LambdaCreateParams.simple "f"]⟩).2.destroy_infrastructure
      (AWSAutomation.init.provision_infrastructure
        ⟨some [EC2CreateParams.simple], some [CreateBucketParams.simple "b"],
         some [RDSCreateParams.simple "d"],
         some [LambdaCreateParams.simple "f"]⟩).1).2.s3.buckets = []
    ∧ ((AWSAutomation.init.provision_infrastructure
        ⟨some [EC2CreateParams.simple], some [CreateBucketParams.simple "b"],
         some [RDSCreateParams.simple "d"],
         some [LambdaCreateParams.simple "f"]⟩).2.destroy_infrastructure
      (AWSAutomation.init.provision_infrastructure
        ⟨some [EC2CreateParams.simple], some [CreateBucketParams.simple "b"],
         some [RDSCreateParams.simple "d"],
         some [LambdaCreateParams.simple "f"]⟩).1).2.ec2.instances.length
      = 1 := by
  have h := destroy_after_provision_roundtrip
    ⟨some [EC2CreateParams.simple], some [CreateBucketParams.simple "b"],
     some [RDSCreateParams.simple "d"],
     some [LambdaCreateParams.simple "f"]⟩
    (by rintro ps hps; cases hps; decide)
    (by rintro ps hps; cases hps; decide)
    (by rintro ps hps; cases hps; decide)
    _ rfl _ rfl
  exact ⟨h.1.trans (by decide), h.2.1.trans (by decide), h.2.2.2.2.1,
    h.2.2.2.2.2.2.2.1.trans (by decide)⟩

/-- C8 counterexample: the claim says failure is always signaled by a
False, None, or empty return value.  `invoke_function` on an unknown
function name instead returns the distinguished error dictionary
`{"error": "Function not found"}` — a non-empty dict (its key list is
["error"], not []), which is neither False nor None nor empty. -/
theorem invoke_failure_value_counterexample :
    (LambdaManager.init.invoke_function "f" none).1
        = InvokeResult.errorResult "Function not found"
    ∧ (LambdaManager.init.invoke_function "f" none).2 = LambdaManager.init
    ∧ invokeResultDictKeys (LambdaManager.init.invoke_function "f" none).1
        ≠ [] := by
  exact ⟨rfl, rfl, by decide⟩

/-- C8 (amended): no operation of the embedding can raise (they are total
functions); for every manager operation, an unknown identifier or a
wrong-state precondition is signaled by the operation's designated failure
return value — False, None, the empty list, or (for function invocation)
the distinguished non-empty error dict — with the manager left completely
unchanged; and a not-found identifier anywhere inside a
`destroy_infrastructure` batch never aborts the remaining iterations: the
whole teardown behaves as if the not-found identifier were absent from the
list. -/
theorem operations_signal_failure_by_value
    (me : EC2Manager) (i1 : String) (tg : List (String × String))
    (h1 : alookup me.instances i1 = none)
    (ms : S3Manager) (n1 k body pfx : String)
    (md : Option (List (String × String))) (f : Bool)
    (h2 : alookup ms.buckets n1 = none)
    (mr : RDSManager) (d1 snap : String) (ic : Option String)
    (sto bp : Option Int)
    (h3 : alookup mr.instances d1 = none)
    (ml : LambdaManager) (f1 sid act prin : String)
    (pl : Option (List (String × String))) (cd : Option String)
    (t mem : Option Int) (env : Option (List (String × String)))
    (h4 : alookup ml.functions f1 = none)
    (me2 : EC2Manager) (i2 : String) (j2 : EC2Instance)
    (h5 : alookup me2.instances i2 = some j2) (h5b : j2.state ≠ "running")
    (me3 : EC2Manager) (i3 : String) (j3 : EC2Instance)
    (h6 : alookup me3.instances i3 = some j3) (h6b : j3.state ≠ "stopped")
    (mr2 : RDSManager) (d2 : String) (r2 : RDSInstance)
    (h7 : alookup mr2.instances d2 = some r2)
    (h7b : r2.status ≠ "available")
    (mr3 : RDSManager) (d3 : String) (r3 : RDSInstance)
    (h8 : alookup mr3.instances d3 = some r3) (h8b : r3.status ≠ "stopped")
    (a : AWSAutomation)
    (pre1 post1 pre2 post2 pre3 post3 pre4 post4 : List String)
    (b1 b2 b3 b4 : String)
    (hb1 : acontains a.ec2.instances b1 = false)
    (hb2 : acontains a.s3.buckets b2 = false)
    (hb3 : acontains a.rds.instances b3 = false)
    (hb4 : acontains a.lambda_mgr.functions b4 = false) :
    me.terminate_instance i1 = (false, me)
    ∧ me.stop_instance i1 = (false, me)
    ∧ me.start_instance i1 = (false, me)
    ∧ me.get_instance_info i1 = none
    ∧ me.tag_instance i1 tg = (false, me)
    ∧ ms.delete_bucket n1 f = (false, ms)
    ∧ ms.put_object n1 k body md = (false, ms)
    ∧ ms.delete_object n1 k = (false, ms)
    ∧ ms.list_objects n1 pfx = []
    ∧ ms.get_bucket_info n1 = none
    ∧ ms.enable_versioning n1 = (false, ms)
    ∧ mr.delete_instance d1 = (false, mr)
    ∧ mr.stop_instance d1 = (false, mr)
    ∧ mr.start_instance d1 = (false, mr)
    ∧ mr.create_snapshot d1 snap = none
    ∧ mr.get_instance_info d1 = none
    ∧ mr.modify_instance d1 ic sto bp = (false, mr)
    ∧ ml.delete_function f1 = (false, ml)
    ∧ ml.invoke_function f1 pl
        = (InvokeResult.errorResult "Function not found", ml)
    ∧ ml.update_function_code f1 cd = (false, ml)
    ∧ ml.update_function_configuration f1 t mem env = (false, ml)
    ∧ ml.get_function_info f1 = none
    ∧ ml.add_permission f1 sid act prin = (false, ml)
    ∧ me2.stop_instance i2 = (false, me2)
    ∧ me3.start_instance i3 = (false, me3)
    ∧ mr2.stop_instance d2 = (false, mr2)
    ∧ mr3.start_instance d3 = (false, mr3)
    ∧ a.destroy_infrastructure
        ⟨pre1 ++ b1 :: post1, pre2 ++ b2 :: post2, pre3 ++ b3 :: post3,
         pre4 ++ b4 :: post4⟩
      = a.destroy_infrastructure
        ⟨pre1 ++ post1, pre2 ++ post2, pre3 ++ post3,
         pre4 ++ post4⟩ := by
  have hc1 : acontains me.instances i1 = false :=
    (acontains_false_iff _ _).2 h1
  have hc2 : acontains ms.buckets n1 = false :=
    (acontains_false_iff _ _).2 h2
  have hc3 : acontains mr.instances d1 = false :=
    (acontains_false_iff _ _).2 h3
  have hc4 : acontains ml.functions f1 = false :=
    (acontains_false_iff _ _).2 h4
  refine ⟨terminate_absent hc1, ?_, ?_, h1, ?_,
    delete_bucket_absent f hc2, ?_, ?_, ?_, h2, ?_,
    rds_delete_absent hc3, ?_, ?_, ?_, h3, ?_,
    lambda_delete_absent hc4, ?_, ?_, ?_, h4, ?_,
    ?_, ?_, ?_, ?_, ?_⟩
  · unfold EC2Manager.stop_instance
    rw [h1]
  · unfold EC2Manager.start_instance
    rw [h1]
  · unfold EC2Manager.tag_instance
    rw [h1]
  · unfold S3Manager.put_object
    rw [h2]
  · unfold S3Manager.delete_object
    rw [h2]
  · unfold S3Manager.list_objects
    rw [h2]
  · unfold S3Manager.enable_versioning
    rw [h2]
  · unfold RDSManager.stop_instance
    rw [h3]
  · unfold RDSManager.start_instance
    rw [h3]
  · unfold RDSManager.create_snapshot
    rw [if_neg (by simp [hc3])]
  · unfold RDSManager.modify_instance
    rw [h3]
  · unfold LambdaManager.invoke_function
    rw [h4]
  · unfold LambdaManager.update_function_code
    rw [h4]
  · unfold LambdaManager.update_function_configuration
    rw [h4]
  · unfold LambdaManager.add_permission
    rw [if_neg (by simp [hc4])]
  · unfold EC2Manager.stop_instance
    rw [h5]
    dsimp only
    rw [if_neg h5b]
  · unfold EC2Manager.start_instance
    rw [h6]
    dsimp only
    rw [if_neg h6b]
  · unfold RDSManager.stop_instance
    rw [h7]
    dsimp only
    rw [if_neg h7b]
  · unfold RDSManager.start_instance
    rw [h8]
    dsimp only
    rw [if_neg h8b]
  · unfold AWSAutomation.destroy_infrastructure
    rw [destroyLoop_skip_ec2 pre1 _ _ _ hb1,
      destroyLoop_skip_s3 pre2 _ _ _ hb2,
      destroyLoop_skip_rds pre3 _ _ _ hb3,
      destroyLoop_skip_lambda pre4 _ _ _ hb4]

theorem operations_signal_failure_by_value_witness :
    EC2Manager.init.terminate_instance "x" = (false, EC2Manager.init)
    ∧ LambdaManager.init.invoke_function "x" none
        = (InvokeResult.errorResult "Function not found", LambdaManager.init)
    ∧ AWSAutomation.init.destroy_infrastructure ⟨["x"], ["x"], ["x"], ["x"]⟩
        = AWSAutomation.init.destroy_infrastructure ⟨[], [], [], []⟩ := by
  have h := operations_signal_failure_by_value
    EC2Manager.init "x" [] rfl
    S3Manager.init "x" "k" "b" "" none false rfl
    RDSManager.init "x" "s" none none none rfl
    LambdaManager.init "x" "s" "a" "p" none none none none none rfl
    ((EC2Manager.init.create_instance
      EC2CreateParams.simple).2.stop_instance (genInstanceId 0)).2
    (genInstanceId 0)
    { instance_id := genInstanceId 0, instance_type := "t2.micro",
      ami_id := "ami-default", key_name := none, security_groups := [],
      tags := [], state := "stopped", launch_time := 0, public_ip := 0,
      private_ip := 0 }
    (by decide) (by decide)
    (EC2Manager.init.create_instance EC2CreateParams.simple).2
    (genInstanceId 0)
    { instance_id := genInstanceId 0, instance_type := "t2.micro",
      ami_id := "ami-default", key_name := none, security_groups := [],
      tags := [], state := "running", launch_time := 0, public_ip := 0,
      private_ip := 0 }
    (by decide) (by decide)
    ((RDSManager.init.create_instance
      (RDSCreateParams.simple "d")).2.stop_instance "d").2 "d"
    { db_instance_identifier := "d", engine := "mysql",
      engine_version := "8.0", instance_class := "db.t3.micro",
      allocated_storage := 20, db_name := "d", master_username := "admin",
      multi_az := false, backup_retention_period := 7, tags := [],
      status := "stopped", endpoint := 0, port := 3306,
      creation_time := 0 }
    (by decide) (by decide)
    (RDSManager.init.create_instance (RDSCreateParams.simple "d")).2 "d"
    { db_instance_identifier := "d", engine := "mysql",
      engine_version := "8.0", instance_class := "db.t3.micro",
      allocated_storage := 20, db_name := "d", master_username := "admin",
      multi_az := false, backup_retention_period := 7, tags := [],
      status := "available", endpoint := 0, port := 3306,
      creation_time := 0 }
    (by decide) (by decide)
    AWSAutomation.init [] [] [] [] [] [] [] [] "x" "x" "x" "x"
    rfl rfl rfl rfl
  obtain ⟨w1, _, _, _, _, _, _, _, _, _, _, _, _, _, _, _, _, _, w19,
    _, _, _, _, _, _, _, _, w28⟩ := h
  exact ⟨w1, w19, w28⟩
